import Mathlib

/-!
Verification development for the 3D model conversion pipeline of the
Nexora-WebAR repository (`src/server/services/stripe-service.ts`,
`ModelConversionService` and its collaborators, plus the upload route in
`src/server/routes.ts`).

The TypeScript pipeline is shallowly embedded: each method of
`ModelConversionService` becomes a Lean definition over an explicit run
state (the mutable `ConversionJob` record, the append-only event trace
standing for the observable side effects, and the per-job workspace of
files).  External tools (Blender, gltf-pipeline, usd_from_gltf), the S3
uploader and the storage collaborator are modelled by success/failure
flags in a run configuration, since the source only observes their
success or failure plus the files they leave behind.
-/

namespace Nexora

/- ## String utilities mirroring the JavaScript runtime -/

/-- Characters of the basename of a path: everything after the last slash
(model of Node `path.basename` restricted to what `path.extname` needs). -/
def basenameChars (p : String) : List Char :=
  ((p.toList.reverse).takeWhile (fun c => c ≠ '/')).reverse

/-- Model of Node `path.extname`: the suffix of the basename from its last
dot, or `""` when the basename has no dot or only a leading dot. -/
def extname (p : String) : String :=
  let base := basenameChars p
  let after := base.reverse.takeWhile (fun c => c ≠ '.')
  if after.length + 1 ≤ base.length then
    if after.length + 1 = base.length then ""
    else String.mk ('.' :: after.reverse)
  else ""

/-- Model of JavaScript `String.prototype.toLowerCase` on ASCII data. -/
def lowerStr (s : String) : String :=
  String.mk (s.toList.map Char.toLower)

/-- Model of JavaScript `String.prototype.toUpperCase` on ASCII data. -/
def upperStr (s : String) : String :=
  String.mk (s.toList.map Char.toUpper)

/-- Default alphabet of the `nanoid` library (64 URL-safe characters). -/
def urlAlphabet : List Char :=
  "useandom-26T198340PX75pxJACKVERYMINDBUSHWOLF_GQZbfghjklqvwyzrict".toList

/-- Model of the external `nanoid` generator: `size` characters drawn from
the 64-character URL alphabet, the randomness supplied as a seed list. -/
def nanoid (size : Nat) (seed : List Nat) : String :=
  String.mk ((List.range size).map (fun i => urlAlphabet.getD (seed.getD i 0 % 64) 'u'))

/- ## Data model (interface `ConversionJob` and friends) -/

/-- Job status values of `ConversionJob.status`. -/
inductive Status where
  | pending
  | processing
  | complete
  | failed
deriving DecidableEq, Repr

/-- Metadata returned by `analyzeModel` on a successful `fs.stat`
(the geometry counts are the source's literal placeholder numbers). -/
structure ModelMeta where
  fileSize : Nat
  vertices : Nat
  triangles : Nat
  textures : Nat
  format : String
  optimized : Bool
deriving DecidableEq, Repr

/-- The `outputFiles` field of a `ConversionJob`. -/
structure OutputFiles where
  glb : Option String := none
  usdz : Option String := none
  thumbnail : Option String := none
deriving DecidableEq, Repr

/-- The `ConversionJob` record of `stripe-service.ts`.  Timestamps are
naturals (epoch milliseconds). -/
structure ConversionJob where
  id : String
  modelId : String
  status : Status
  inputFile : String
  outputFiles : OutputFiles
  logs : List String
  startTime : Nat
  endTime : Option Nat := none
  error : Option String := none
  metadata : Option ModelMeta := none
deriving DecidableEq, Repr

/-- A partial update passed to `storage.updateModel` (each field present
exactly when the source passes it). -/
structure ModelUpdate where
  status : Option String := none
  processingLogs : Option (List String) := none
  glbFileUrl : Option String := none
  usdzFileUrl : Option String := none
  thumbnailUrl : Option String := none
  shortLink : Option String := none
  qrCodeUrl : Option String := none
  metadata : Option (Option ModelMeta) := none
  originalFileUrl : Option String := none
deriving DecidableEq, Repr

/-- The persisted model record (the fields of the `arModels` row that the
pipeline and the upload route touch). -/
structure ArModel where
  id : String
  status : String
  shortLink : String
  qrCodeUrl : Option String := none
  originalFileUrl : Option String := none
  glbFileUrl : Option String := none
  usdzFileUrl : Option String := none
  thumbnailUrl : Option String := none
  processingLogs : List String := []
deriving DecidableEq, Repr

/-- Effect of one `storage.updateModel(id, u)` call on the persisted row:
present fields overwrite, absent fields are kept. -/
def applyUpdate (m : ArModel) (u : ModelUpdate) : ArModel :=
  { m with
    status := match u.status with | some v => v | none => m.status
    shortLink := match u.shortLink with | some v => v | none => m.shortLink
    qrCodeUrl := match u.qrCodeUrl with | some v => some v | none => m.qrCodeUrl
    originalFileUrl := match u.originalFileUrl with | some v => some v | none => m.originalFileUrl
    glbFileUrl := match u.glbFileUrl with | some v => some v | none => m.glbFileUrl
    usdzFileUrl := match u.usdzFileUrl with | some v => some v | none => m.usdzFileUrl
    thumbnailUrl := match u.thumbnailUrl with | some v => some v | none => m.thumbnailUrl
    processingLogs := match u.processingLogs with | some v => v | none => m.processingLogs }

/- ## Files of a job's private working directory

The source builds every intermediate path from constants inside the job's
working directory `path.join(tempDir, job.id)`; the embedding names those
fixed files so that file existence stays decidable. -/

/-- The files the pipeline creates inside a job's working directory. -/
inductive WorkFile where
  | modelGlb      -- `model.glb`, the canonical converter output
  | optimizedGlb  -- `optimized.glb`, the optimizer output
  | modelUsdz     -- `model.usdz`
  | thumbnailJpg  -- `thumbnail.jpg`
  | convertPy     -- `convert.py`, the Blender conversion script
  | thumbnailPy   -- `thumbnail.py`, the Blender thumbnail script
deriving DecidableEq, Repr

/-- A path the pipeline passes between stages: either the uploaded input
file or one of the fixed files of the working directory. -/
inductive FPath where
  | input
  | work (f : WorkFile)
deriving DecidableEq, Repr

/-- The external commands the service shells out to (`runCommand`). -/
inductive Cmd where
  | gltfPipelineConvert   -- `gltf-pipeline -i <input> -o <model.glb>`
  | gltfPipelineOptimize  -- `gltf-pipeline -i <glb> -o <optimized.glb> --draco...`
  | blenderFBX            -- `blender --background --python convert.py` (FBX import)
  | blenderOBJ            -- `blender --background --python convert.py` (OBJ import)
  | blenderThumbnail      -- `blender --background --python thumbnail.py`
  | usdFromGltf           -- `usd_from_gltf <glb> <usdz>`
deriving DecidableEq, Repr

/-- Observable side effects of a pipeline run, in execution order. -/
inductive Event where
  | logLine (msg : String)
  | storageUpdate (modelId : String) (u : ModelUpdate)
  | mkdirWork
  | runCmd (c : Cmd)
  | copyFile (src : String) (dst : FPath)
  | writeFile (p : FPath)
  | uploadFile (p : FPath) (fmt : String)
  | placeholderThumb (modelPath : String) (modelId : String)
  | qrGenerated (encodedUrl : String) (shortLink : String)
  | removeWorkDir
  | statusSet (s : Status)
deriving DecidableEq, Repr

/-- Contents of the job's working directory: for each fixed file, `some n`
when it exists with size `n` bytes. -/
structure Workspace where
  modelGlb : Option Nat := none
  optimizedGlb : Option Nat := none
  modelUsdz : Option Nat := none
  thumbnailJpg : Option Nat := none
  convertPy : Option Nat := none
  thumbnailPy : Option Nat := none
deriving DecidableEq, Repr

/-- Size lookup for a file of the working directory. -/
def Workspace.get (ws : Workspace) : WorkFile → Option Nat
  | .modelGlb => ws.modelGlb
  | .optimizedGlb => ws.optimizedGlb
  | .modelUsdz => ws.modelUsdz
  | .thumbnailJpg => ws.thumbnailJpg
  | .convertPy => ws.convertPy
  | .thumbnailPy => ws.thumbnailPy

/-- Record a file of the working directory as existing with size `n`. -/
def Workspace.set (ws : Workspace) : WorkFile → Nat → Workspace
  | .modelGlb, n => { ws with modelGlb := some n }
  | .optimizedGlb, n => { ws with optimizedGlb := some n }
  | .modelUsdz, n => { ws with modelUsdz := some n }
  | .thumbnailJpg, n => { ws with thumbnailJpg := some n }
  | .convertPy, n => { ws with convertPy := some n }
  | .thumbnailPy, n => { ws with thumbnailPy := some n }

/-- Run configuration: outcome flags for the external collaborators
(tools, S3, storage) and the remaining ambient inputs (sizes the tools
produce, the nanoid randomness, URLs from the environment, the clock). -/
structure RunCfg where
  copyOk : Bool := true          -- `fs.copyFile` of a GLB input
  gltfPipelineOk : Bool := true  -- gltf-pipeline conversion run
  blenderOk : Bool := true       -- Blender FBX/OBJ conversion run
  optimizeOk : Bool := true      -- gltf-pipeline optimization run
  usdzOk : Bool := true          -- usd_from_gltf run
  thumbRenderOk : Bool := true   -- Blender thumbnail render run
  qrOk : Bool := true            -- QRCode.toBuffer + local write
  uploadOk : Bool := true        -- S3 uploads
  storageOk : Bool := true       -- `storage.updateModel` calls that may throw
  rmOk : Bool := true            -- `fs.rm` of the working directory
  inputSize : Nat := 0           -- size of the uploaded input file
  convOutSize : Nat := 0         -- size of the converter's GLB output
  optOutSize : Nat := 0          -- size of the optimizer's output
  usdzOutSize : Nat := 0         -- size of the usd_from_gltf output
  thumbOutSize : Nat := 0        -- size of the rendered thumbnail
  seed : List Nat := []          -- randomness of the short-link nanoid(8)
  uploadSeed : List Nat := []    -- randomness of the S3 key nanoid(8)
  baseUrl : String := "https://nexora.app"        -- BASE_URL default
  cdnDomain : String := "nexora-models.s3.amazonaws.com"  -- CDN_DOMAIN
  time : Nat := 0                -- wall clock during the run
deriving Repr

/-- Size under which a path of the run is visible, `none` when the file
does not exist (the uploaded input file always exists). -/
def fileSize (cfg : RunCfg) (ws : Workspace) : FPath → Option Nat
  | .input => some cfg.inputSize
  | .work f => ws.get f

/- ## Execution state of one `processConversion` run

In the source, a stage mutates the shared `ConversionJob` object (held by
reference in the job map), performs side effects, and may throw.  The
embedding threads that state explicitly and records side effects as an
event trace.  Failure (a thrown `Error` with its message) is the
`Except.error` alternative of each step's result. -/

/-- Mutable state threaded through a run of `processConversion`. -/
structure RunState where
  job : ConversionJob
  events : List Event := []
  ws : Workspace := {}
deriving DecidableEq, Repr

/-- One pipeline step: transforms the state and either returns a value or
throws an error message; state changes made before a throw persist, as
they do for the mutated job object in the source. -/
def StageM (α : Type) : Type := RunState → RunState × Except String α

/-- Sequencing of steps (`await a; continue with its result`). -/
def bindM {α β : Type} (m : StageM α) (f : α → StageM β) : StageM β := fun s =>
  match m s with
  | (s1, Except.ok a) => f a s1
  | (s1, Except.error e) => (s1, Except.error e)

/-- A step that only returns a value. -/
def pureM {α : Type} (a : α) : StageM α := fun s => (s, Except.ok a)

/-- Model of a `try`/`catch` block around a step. -/
def tryCatchM {α : Type} (m : StageM α) (h : String → StageM α) : StageM α := fun s =>
  match m s with
  | (s1, Except.ok a) => (s1, Except.ok a)
  | (s1, Except.error e) => h e s1

/-- Throwing a JavaScript `Error` with message `e`. -/
def throwM {α : Type} (e : String) : StageM α := fun s => (s, Except.error e)

/-- Append one event to the trace. -/
def emitEv (e : Event) : StageM Unit := fun s =>
  ({ s with events := s.events ++ [e] }, Except.ok ())

/-- Read the job record. -/
def getJobM : StageM ConversionJob := fun s => (s, Except.ok s.job)

/-- Read the whole run state. -/
def getStateM : StageM RunState := fun s => (s, Except.ok s)

/-- Mutate the job record in place. -/
def modifyJobM (f : ConversionJob → ConversionJob) : StageM Unit := fun s =>
  ({ s with job := f s.job }, Except.ok ())

/-- Record a working-directory file as created with size `n`. -/
def setFileM (f : WorkFile) (n : Nat) : StageM Unit := fun s =>
  ({ s with ws := s.ws.set f n }, Except.ok ())

/-- A status assignment `job.status = st`, with the transition recorded in
the trace. -/
def setStatusM (st : Status) : StageM Unit := fun s =>
  ({ s with job := { s.job with status := st },
            events := s.events ++ [Event.statusSet st] }, Except.ok ())

/-- Model of `runCommand`: the attempt is recorded; on failure the source
rejects with the tool's diagnostic, embedded as a fixed message. -/
def runCommand (ok : Bool) (c : Cmd) : StageM Unit :=
  bindM (emitEv (Event.runCmd c)) (fun _ =>
    if ok then pureM () else throwM "Command failed")

/-- Model of `updateJobLogs`: appends a timestamped line to `job.logs`,
then pushes the full log to `storage.updateModel`; a persistence failure
there is caught and only logged, so this step never throws. -/
def updateJobLogs (cfg : RunCfg) (msg : String) : StageM Unit :=
  bindM getJobM (fun j =>
  bindM (modifyJobM (fun job =>
    { job with logs := job.logs ++ ["[" ++ toString cfg.time ++ "] " ++ msg] })) (fun _ =>
  bindM (emitEv (Event.logLine msg)) (fun _ =>
  bindM getJobM (fun j2 =>
  emitEv (Event.storageUpdate j.modelId { processingLogs := some j2.logs })))))

/-- The in-place update `cancelJob` performs on a job it cancels. -/
def cancelJobUpdate (t : Nat) (j : ConversionJob) : ConversionJob :=
  { j with status := Status.failed, error := some "Job cancelled by user", endTime := some t }

/-- Events of one delivered cancellation (status transition plus the
storage write `cancelJob` performs). -/
def cancelEvents (j : ConversionJob) : List Event :=
  [Event.statusSet Status.failed,
   Event.storageUpdate j.modelId
     { status := some "failed",
       processingLogs := some (j.logs ++ ["Job cancelled by user"]) }]

/-- Model of `cancelJob` acting on one job record: the source only acts
when the job is currently `processing`. -/
def cancelJobStep (t : Nat) (j : ConversionJob) : ConversionJob × List Event :=
  if j.status = Status.processing then (cancelJobUpdate t j, cancelEvents j)
  else (j, [])

/-- An `await` suspension of the pipeline, numbered `k` in program order:
when a concurrent `cancelJob` call is delivered at this suspension
(`cancelAt = some k`), it runs against the shared job record exactly as
`cancelJob` does. -/
def awaitPoint (cfg : RunCfg) (cancelAt : Option Nat) (k : Nat) : StageM Unit := fun s =>
  if cancelAt = some k then
    let (j, evs) := cancelJobStep cfg.time s.job
    ({ s with job := j, events := s.events ++ evs }, Except.ok ())
  else (s, Except.ok ())

/- ## Pipeline stages (`ModelConversionService` methods) -/

/-- Model of `processGLTF`: a GLB input (raw extension compared to `.glb`
without lower-casing) is byte-copied to `model.glb`; otherwise the
external gltf-pipeline tool repackages it. -/
def processGLTF (cfg : RunCfg) : StageM FPath :=
  bindM getJobM (fun j =>
  bindM
    (if extname j.inputFile = ".glb" then
      bindM (emitEv (Event.copyFile j.inputFile (FPath.work WorkFile.modelGlb))) (fun _ =>
        if cfg.copyOk then setFileM WorkFile.modelGlb cfg.inputSize
        else throwM "copy failed")
    else
      bindM (runCommand cfg.gltfPipelineOk Cmd.gltfPipelineConvert) (fun _ =>
        setFileM WorkFile.modelGlb cfg.convOutSize))
    (fun _ => pureM (FPath.work WorkFile.modelGlb)))

/-- Model of `convertFBXtoGLB`: writes the Blender python script (its text
abstracted), logs, runs Blender; on success the GLB output exists. -/
def convertFBXtoGLB (cfg : RunCfg) : StageM FPath :=
  bindM (emitEv (Event.writeFile (FPath.work WorkFile.convertPy))) (fun _ =>
  bindM (setFileM WorkFile.convertPy 0) (fun _ =>
  bindM (updateJobLogs cfg "Converting FBX to GLB...") (fun _ =>
  bindM (runCommand cfg.blenderOk Cmd.blenderFBX) (fun _ =>
  bindM (setFileM WorkFile.modelGlb cfg.convOutSize) (fun _ =>
  pureM (FPath.work WorkFile.modelGlb))))))

/-- Model of `convertOBJtoGLB`, identical shape to the FBX converter. -/
def convertOBJtoGLB (cfg : RunCfg) : StageM FPath :=
  bindM (emitEv (Event.writeFile (FPath.work WorkFile.convertPy))) (fun _ =>
  bindM (setFileM WorkFile.convertPy 0) (fun _ =>
  bindM (updateJobLogs cfg "Converting OBJ to GLB...") (fun _ =>
  bindM (runCommand cfg.blenderOk Cmd.blenderOBJ) (fun _ =>
  bindM (setFileM WorkFile.modelGlb cfg.convOutSize) (fun _ =>
  pureM (FPath.work WorkFile.modelGlb))))))

/-- Model of `optimizeForWebAR`: runs the optimizer; on tool failure the
catch block returns the original path unchanged. -/
def optimizeForWebAR (cfg : RunCfg) (glbPath : FPath) : StageM FPath :=
  tryCatchM
    (bindM (runCommand cfg.optimizeOk Cmd.gltfPipelineOptimize) (fun _ =>
     bindM (setFileM WorkFile.optimizedGlb cfg.optOutSize) (fun _ =>
     pureM (FPath.work WorkFile.optimizedGlb))))
    (fun _ => pureM glbPath)

/-- Model of `generateUSDZ`: runs usd_from_gltf; on tool failure writes
the 24-byte literal `placeholder usdz content`; the usdz path is returned
either way. -/
def generateUSDZ (cfg : RunCfg) : StageM FPath :=
  bindM
    (tryCatchM
      (bindM (runCommand cfg.usdzOk Cmd.usdFromGltf) (fun _ =>
       setFileM WorkFile.modelUsdz cfg.usdzOutSize))
      (fun _ =>
       bindM (emitEv (Event.writeFile (FPath.work WorkFile.modelUsdz))) (fun _ =>
       setFileM WorkFile.modelUsdz 24)))
    (fun _ => pureM (FPath.work WorkFile.modelUsdz))

/-- Model of `ModelConversionService.generateThumbnail`: writes the
Blender script and renders; on render failure the catch block calls
`fileUploadService.generateThumbnail('', '', ...)` — which builds a local
placeholder and uploads it to object storage (throwing if that upload
fails) — and its return value is discarded; `thumbnail.jpg` is returned
without having been created in that case. -/
def generateThumbnail (cfg : RunCfg) : StageM FPath :=
  bindM (emitEv (Event.writeFile (FPath.work WorkFile.thumbnailPy))) (fun _ =>
  bindM (setFileM WorkFile.thumbnailPy 0) (fun _ =>
  bindM
    (tryCatchM
      (bindM (runCommand cfg.thumbRenderOk Cmd.blenderThumbnail) (fun _ =>
       setFileM WorkFile.thumbnailJpg cfg.thumbOutSize))
      (fun _ =>
       bindM (emitEv (Event.placeholderThumb "" "")) (fun _ =>
       if cfg.uploadOk then pureM ()
       else throwM "Failed to generate model thumbnail")))
    (fun _ => pureM (FPath.work WorkFile.thumbnailJpg))))

/-- Model of `analyzeModel`: `fs.stat` gives the file size; the remaining
numbers are the source's placeholders; a stat failure is caught and an
empty object (here `none`) returned. -/
def analyzeModel (cfg : RunCfg) (glbPath : FPath) : StageM (Option ModelMeta) :=
  bindM getStateM (fun s =>
  match fileSize cfg s.ws glbPath with
  | some n => pureM (some { fileSize := n, vertices := 12400, triangles := 24800,
                            textures := 4, format := "GLB", optimized := true })
  | none => pureM none)

/-- Model of `generateQRCode`: renders a QR image of
`BASE_URL /ar/ shortLink`, writes it under the temp root and returns the
hardcoded CDN URL; any failure is caught and the empty string returned. -/
def generateQRCode (cfg : RunCfg) (shortLink : String) : StageM String :=
  if cfg.qrOk then
    bindM (emitEv (Event.qrGenerated (cfg.baseUrl ++ "/ar/" ++ shortLink) shortLink)) (fun _ =>
    pureM ("https://cdn.nexora.app/qr/" ++ shortLink ++ ".png"))
  else pureM ""

/-- Model of `fileUploadService.uploadProcessedModel`: reads the local
file (failing when it does not exist), uploads it to S3 under a
`nanoid(8)` key, and returns the CDN URL; every failure is rethrown as
`Failed to upload processed <FMT> file`. -/
def uploadProcessedModel (cfg : RunCfg) (p : FPath) (modelId fmt : String) : StageM String :=
  bindM getStateM (fun s =>
  match fileSize cfg s.ws p with
  | none => throwM ("Failed to upload processed " ++ upperStr fmt ++ " file")
  | some _ =>
    if cfg.uploadOk then
      bindM (emitEv (Event.uploadFile p fmt)) (fun _ =>
      pureM ("https://" ++ cfg.cdnDomain ++ "/models/" ++ modelId ++ "/processed/"
             ++ nanoid 8 cfg.uploadSeed ++ "." ++ fmt))
    else throwM ("Failed to upload processed " ++ upperStr fmt ++ " file"))

/-- Model of `cleanup`: attempts `fs.rm` of the working directory; a
failure is only logged, so the step never throws. -/
def cleanup (cfg : RunCfg) : StageM Unit :=
  bindM (emitEv Event.removeWorkDir) (fun _ =>
    if cfg.rmOk then (fun s => ({ s with ws := {} }, Except.ok ())) else pureM ())

/- ## The orchestrator (`processConversion`, `convertModel`, `cancelJob`,
`cleanupOldJobs`) -/

/-- The `switch (inputExt)` of `processConversion`: converter selection
by the (lower-cased) input extension; an unrecognized extension throws
`Unsupported file format`. -/
def selectConverter (cfg : RunCfg) (inputExt : String) : StageM FPath :=
  if inputExt = ".glb" ∨ inputExt = ".gltf" then processGLTF cfg
  else if inputExt = ".fbx" then convertFBXtoGLB cfg
  else if inputExt = ".obj" then convertOBJtoGLB cfg
  else throwM ("Unsupported file format: " ++ inputExt)

/-- Stages of `processConversion` after converter dispatch: analysis,
optimization, USDZ, thumbnail, the three uploads, short link + QR code,
the final persistence write, status to `complete`, and cleanup.
`modelId` is `job.modelId`, which no stage ever mutates; `awaitPoint`s
mark the `await` suspensions where a concurrent `cancelJob` may be
delivered. -/
def pipelineAfterConvert (cfg : RunCfg) (cancelAt : Option Nat)
    (modelId : String) (glbPath : FPath) : StageM Unit :=
  bindM (awaitPoint cfg cancelAt 1) (fun _ =>
  bindM (updateJobLogs cfg "Analyzing model...") (fun _ =>
  bindM (analyzeModel cfg glbPath) (fun metadata =>
  bindM (awaitPoint cfg cancelAt 2) (fun _ =>
  bindM (updateJobLogs cfg "Optimizing for WebAR...") (fun _ =>
  bindM (optimizeForWebAR cfg glbPath) (fun optimizedGlbPath =>
  bindM (awaitPoint cfg cancelAt 3) (fun _ =>
  bindM (updateJobLogs cfg "Generating USDZ for iOS...") (fun _ =>
  bindM (generateUSDZ cfg) (fun usdzPath =>
  bindM (awaitPoint cfg cancelAt 4) (fun _ =>
  bindM (updateJobLogs cfg "Creating thumbnail...") (fun _ =>
  bindM (generateThumbnail cfg) (fun thumbnailPath =>
  bindM (awaitPoint cfg cancelAt 5) (fun _ =>
  bindM (updateJobLogs cfg "Uploading processed files...") (fun _ =>
  bindM (uploadProcessedModel cfg optimizedGlbPath modelId "glb") (fun glbUrl =>
  bindM (uploadProcessedModel cfg usdzPath modelId "usdz") (fun usdzUrl =>
  bindM (uploadProcessedModel cfg thumbnailPath modelId "jpg") (fun thumbnailUrl =>
  bindM (modifyJobM (fun job =>
    { job with outputFiles :=
        { glb := some glbUrl, usdz := some usdzUrl, thumbnail := some thumbnailUrl } })) (fun _ =>
  bindM (awaitPoint cfg cancelAt 6) (fun _ =>
  bindM (updateJobLogs cfg "Generating WebAR link...") (fun _ =>
  let shortLink := nanoid 8 cfg.seed
  bindM (generateQRCode cfg shortLink) (fun qrCodeUrl =>
  bindM getJobM (fun j3 =>
  bindM (emitEv (Event.storageUpdate modelId
    { status := some "complete", glbFileUrl := some glbUrl, usdzFileUrl := some usdzUrl,
      thumbnailUrl := some thumbnailUrl, shortLink := some shortLink,
      qrCodeUrl := some qrCodeUrl, metadata := some metadata,
      processingLogs := some j3.logs })) (fun _ =>
  bindM (if cfg.storageOk then pureM () else throwM "storage update failed") (fun _ =>
  bindM (awaitPoint cfg cancelAt 7) (fun _ =>
  bindM (setStatusM Status.complete) (fun _ =>
  bindM (modifyJobM (fun job => { job with endTime := some cfg.time })) (fun _ =>
  bindM (updateJobLogs cfg "Conversion completed successfully!") (fun _ =>
  cleanup cfg))))))))))))))))))))))))))))

/-- Body of the `try` block of `processConversion`, in source order:
status to `processing`, extension dispatch (on the lower-cased
extension), then the rest of the pipeline. -/
def processConversionBody (cfg : RunCfg) (cancelAt : Option Nat) : StageM Unit :=
  bindM (setStatusM Status.processing) (fun _ =>
  bindM (awaitPoint cfg cancelAt 0) (fun _ =>
  bindM (updateJobLogs cfg "Starting conversion process...") (fun _ =>
  bindM getJobM (fun j =>
  bindM (emitEv Event.mkdirWork) (fun _ =>
  bindM (selectConverter cfg (lowerStr (extname j.inputFile))) (fun glbPath =>
  pipelineAfterConvert cfg cancelAt j.modelId glbPath))))))

/-- The `catch` block of `processConversion`: status to `failed`, record
the error and end time, push the failed status with the error appended to
the logs, then log the failure. -/
def processConversionCatch (cfg : RunCfg) (e : String) : StageM Unit :=
  bindM (setStatusM Status.failed) (fun _ =>
  bindM (modifyJobM (fun job => { job with error := some e, endTime := some cfg.time })) (fun _ =>
  bindM getJobM (fun j =>
  bindM (emitEv (Event.storageUpdate j.modelId
    { status := some "failed", processingLogs := some (j.logs ++ ["Error: " ++ e]) })) (fun _ =>
  updateJobLogs cfg ("Conversion failed: " ++ e)))))

/-- Model of `processConversion`: the `try` body under its `catch`
handler, started on a fresh working directory. -/
def processConversion (cfg : RunCfg) (cancelAt : Option Nat) (job0 : ConversionJob) : RunState :=
  (tryCatchM (processConversionBody cfg cancelAt) (processConversionCatch cfg)
    { job := job0 }).1

/-- Result of one `convertModel` call: the job registry afterwards, the
synchronous outcome (the job id, or the rethrown storage error), the
storage events of the synchronous part, and the created job record. -/
structure SubmitOutcome where
  jobs : List (String × ConversionJob)
  outcome : Except String String
  events : List Event
  job : ConversionJob
deriving Repr

/-- Model of the synchronous part of `convertModel`: a fresh
`nanoid(12)` job id, the job record created `pending` and inserted into
the registry, the model marked `processing` in storage (a failure there
marks job and model `failed` and rethrows), and the job id returned; the
pipeline itself is scheduled, not awaited. -/
def convertModel (cfg : RunCfg) (jobSeed : List Nat) (jobs0 : List (String × ConversionJob))
    (modelId inputFilePath : String) : SubmitOutcome :=
  let jobId := nanoid 12 jobSeed
  let job : ConversionJob :=
    { id := jobId, modelId := modelId, status := Status.pending,
      inputFile := inputFilePath, outputFiles := {}, logs := [], startTime := cfg.time }
  let ev0 := Event.storageUpdate modelId
    { status := some "processing", processingLogs := some ["Conversion started..."] }
  if cfg.storageOk then
    { jobs := jobs0 ++ [(jobId, job)], outcome := Except.ok jobId, events := [ev0], job := job }
  else
    let failedJob := { job with status := Status.failed, error := some "storage update failed" }
    { jobs := jobs0 ++ [(jobId, failedJob)],
      outcome := Except.error "storage update failed",
      events := [ev0, Event.storageUpdate modelId
        { status := some "failed", processingLogs := some ["storage update failed"] }],
      job := failedJob }

/-- Model of `convertModel` together with the background pipeline it
schedules: since the registry holds the job by reference, its entry after
the run is the mutated record. -/
def convertModelFull (cfg : RunCfg) (jobSeed : List Nat) (cancelAt : Option Nat)
    (jobs0 : List (String × ConversionJob)) (modelId inputFilePath : String) : SubmitOutcome :=
  let r := convertModel cfg jobSeed jobs0 modelId inputFilePath
  match r.outcome with
  | Except.error _ => r
  | Except.ok jobId =>
    let fin := processConversion cfg cancelAt r.job
    { jobs := jobs0 ++ [(jobId, fin.job)], outcome := Except.ok jobId,
      events := r.events ++ fin.events, job := fin.job }

/-- Whether `cleanupOldJobs` retains a job at the given cutoff: the
source deletes an entry exactly when it has an `endTime` older than the
cutoff. -/
def keepJob (cutoff : Nat) (j : ConversionJob) : Bool :=
  match j.endTime with
  | none => true
  | some e => decide (cutoff ≤ e)

/-- Model of `cleanupOldJobs`: sweep the registry with a cutoff 24 hours
(in milliseconds) before `now`. -/
def cleanupOldJobs (now : Nat) (jobs : List (String × ConversionJob)) :
    List (String × ConversionJob) :=
  jobs.filter (fun kv => keepJob (now - 24 * 60 * 60 * 1000) kv.2)

/-- Model of the upload route `POST /api/models/upload`: the model row is
created with status `uploading` and a fresh `nanoid(8)` short link, the
raw file is uploaded, the row is updated to `processing` with the file
URL, and the conversion is started fire-and-forget; the response body is
the row as created.  Returns the response row, the storage-update events
of route and pipeline in order, and the submit outcome. -/
def uploadModelHandler (cfg : RunCfg) (linkSeed jobSeed : List Nat) (cancelAt : Option Nat)
    (jobs0 : List (String × ConversionJob)) (modelId filePath fileUrl : String) :
    ArModel × List Event × SubmitOutcome :=
  let model0 : ArModel := { id := modelId, status := "uploading", shortLink := nanoid 8 linkSeed }
  let ev1 := Event.storageUpdate modelId
    { originalFileUrl := some fileUrl, status := some "processing" }
  let sub := convertModelFull cfg jobSeed cancelAt jobs0 modelId filePath
  (model0, ev1 :: sub.events, sub)

/-- Effect of a trace of events on the persisted row of `modelId`:
each matching `storage.updateModel` call is applied in order. -/
def applyEvents (modelId : String) (m : ArModel) (evs : List Event) : ArModel :=
  evs.foldl (fun acc e =>
    match e with
    | Event.storageUpdate mid u => if mid = modelId then applyUpdate acc u else acc
    | _ => acc) m

/-- Projection keeping only log lines. -/
def pfLog : Event → Option String :=
  fun e => match e with | Event.logLine m => some m | _ => none

/-- Projection keeping only the `shortLink` fields of storage writes. -/
def pfShortLink : Event → Option String :=
  fun e => match e with | Event.storageUpdate _ u => u.shortLink | _ => none

/-- Projection keeping only QR generations (encoded URL and short link). -/
def pfQr : Event → Option (String × String) :=
  fun e => match e with | Event.qrGenerated u l => some (u, l) | _ => none

/-- The log-line messages of a trace, in order. -/
def logMsgs (evs : List Event) : List String := evs.filterMap pfLog

/-- The short links carried by storage writes of a trace, in order. -/
def persistedShortLinks (evs : List Event) : List String := evs.filterMap pfShortLink

/-- Index of the first log line carrying `msg` (trace length if absent). -/
def firstLogIdx (evs : List Event) (msg : String) : Nat :=
  evs.findIdx (fun e => e = Event.logLine msg)

/-- Whether a step result is a normal return (no exception). -/
def isOkE {α : Type} : Except String α → Bool
  | Except.ok _ => true
  | Except.error _ => false

/-- The pipeline's log lines after converter dispatch, common to every
input format. -/
def mainPipelineLogs : List String :=
  ["Analyzing model...", "Optimizing for WebAR...", "Generating USDZ for iOS...",
   "Creating thumbnail...", "Uploading processed files...", "Generating WebAR link...",
   "Conversion completed successfully!"]

/-- The converter-specific log lines for a (lower-cased) extension. -/
def conversionLogs (ext : String) : List String :=
  if ext = ".fbx" then ["Converting FBX to GLB..."]
  else if ext = ".obj" then ["Converting OBJ to GLB..."]
  else []

/- ## Step predicates used by the general theorems

`NoRemove` bounds the events a prefix of the pipeline may append;
`RemoveIffOk` characterises the cleanup call as the last step of the
`try` body; `PreservesStatus`/`OkStatus` track the status field through
a step; `ProjOk` gives the projection of the appended events of a step,
conditional on the step returning normally. -/

/-- The step only appends events and never the directory removal. -/
def NoRemove {α : Type} (m : StageM α) : Prop :=
  ∀ s, ∃ t, (m s).1.events = s.events ++ t ∧ Event.removeWorkDir ∉ t

/-- The step appends the directory removal exactly when it returns
normally. -/
def RemoveIffOk {α : Type} (m : StageM α) : Prop :=
  ∀ s, ∃ t, (m s).1.events = s.events ++ t ∧
    (isOkE (m s).2 = true → Event.removeWorkDir ∈ t) ∧
    (isOkE (m s).2 = false → Event.removeWorkDir ∉ t)

/-- The step leaves `job.status` unchanged. -/
def PreservesStatus {α : Type} (m : StageM α) : Prop :=
  ∀ s, (m s).1.job.status = s.job.status

/-- Whenever the step returns normally, `job.status` ends as `st`. -/
def OkStatus {α : Type} (m : StageM α) (st : Status) : Prop :=
  ∀ s, isOkE (m s).2 = true → (m s).1.job.status = st

/-- Whenever the step returns normally, the events it appended project
(under `pf`) to exactly `l`. -/
def ProjOk {α γ : Type} (pf : Event → Option γ) (m : StageM α) (l : List γ) : Prop :=
  ∀ s, ∃ t, (m s).1.events = s.events ++ t ∧
    (isOkE (m s).2 = true → t.filterMap pf = l)

/-- Whether a trace contains no `copyFile` effect at all. -/
def noCopyEv (evs : List Event) : Bool :=
  evs.all (fun e => match e with | Event.copyFile _ _ => false | _ => true)

/-- State of a run after the deterministic prefix of
`processConversionBody` (status transition, start log, mkdir), from
which converter dispatch proceeds; used to factor proofs about full
runs. -/
def preState (cfg : RunCfg) (job0 : ConversionJob) : RunState :=
  { job := { job0 with
               status := Status.processing,
               logs := job0.logs
                 ++ ["[" ++ toString cfg.time ++ "] " ++ "Starting conversion process..."] },
    events := [Event.statusSet Status.processing,
               Event.logLine "Starting conversion process...",
               Event.storageUpdate job0.modelId
                 { processingLogs := some (job0.logs
                     ++ ["[" ++ toString cfg.time ++ "] " ++ "Starting conversion process..."]) },
               Event.mkdirWork],
    ws := {} }

/- ## Concrete fixtures used by the closed theorems -/

/-- A run in which every external collaborator succeeds. -/
def cfgAllOk : RunCfg :=
  { seed := [1, 2, 3, 4, 5, 6, 7, 8], uploadSeed := [9, 10], time := 1000,
    inputSize := 204800, convOutSize := 180000, optOutSize := 90000,
    usdzOutSize := 70000, thumbOutSize := 9000 }

/-- A freshly created job for an uploaded `.glb` model. -/
def jobGlb : ConversionJob :=
  { id := "job000000001", modelId := "m1", status := Status.pending,
    inputFile := "/uploads/burger.glb", outputFiles := {}, logs := [], startTime := 900 }

/-- A freshly created job for an uploaded `.gltf` model. -/
def jobGltf : ConversionJob :=
  { id := "job000000002", modelId := "m2", status := Status.pending,
    inputFile := "/uploads/scene.gltf", outputFiles := {}, logs := [], startTime := 900 }

/-- A freshly created job for an upper-cased `.GLB` upload. -/
def jobUpperGlb : ConversionJob :=
  { id := "job000000003", modelId := "m3", status := Status.pending,
    inputFile := "/uploads/BURGER.GLB", outputFiles := {}, logs := [], startTime := 900 }

/-- A freshly created job for an uploaded `.fbx` model. -/
def jobFbx : ConversionJob :=
  { id := "job000000004", modelId := "m4", status := Status.pending,
    inputFile := "/uploads/chair.fbx", outputFiles := {}, logs := [], startTime := 900 }

/-- A job that already finished successfully (endTime one hour after the
epoch of the fixtures). -/
def jobDone : ConversionJob :=
  { id := "job000000005", modelId := "m5", status := Status.complete,
    inputFile := "/uploads/done.glb", outputFiles := {}, logs := [],
    startTime := 900, endTime := some 3600000 }

deriving instance DecidableEq for Except

/- ## Generic lemmas about step composition -/

theorem noRemove_bindM {α β : Type} {m : StageM α} {f : α → StageM β}
    (hm : NoRemove m) (hf : ∀ a, NoRemove (f a)) : NoRemove (bindM m f) := by
  intro s
  obtain ⟨t1, he1, hn1⟩ := hm s
  rcases hms : m s with ⟨s1, r⟩
  rw [hms] at he1
  simp only [] at he1
  cases r with
  | ok a =>
    obtain ⟨t2, he2, hn2⟩ := hf a s1
    refine ⟨t1 ++ t2, ?_, ?_⟩
    · simp only [bindM, hms]
      simp [he2, he1]
    · intro h
      rcases List.mem_append.mp h with h | h
      · exact hn1 h
      · exact hn2 h
  | error e =>
    refine ⟨t1, ?_, hn1⟩
    simp only [bindM, hms]
    simpa using he1

theorem noRemove_silent {α : Type} {m : StageM α}
    (h : ∀ s, (m s).1.events = s.events) : NoRemove m := by
  intro s
  exact ⟨[], by simp [h s], by simp⟩

theorem noRemove_pureM {α : Type} (a : α) : NoRemove (pureM a) :=
  noRemove_silent (fun _ => rfl)

theorem noRemove_throwM {α : Type} (e : String) : NoRemove (throwM (α := α) e) :=
  noRemove_silent (fun _ => rfl)

theorem noRemove_emitEv {e : Event} (h : e ≠ Event.removeWorkDir) :
    NoRemove (emitEv e) := by
  intro s
  exact ⟨[e], by simp [emitEv], by simp [Ne.symm h]⟩

theorem noRemove_tryCatchM {α : Type} {m : StageM α} {h : String → StageM α}
    (hm : NoRemove m) (hh : ∀ e, NoRemove (h e)) : NoRemove (tryCatchM m h) := by
  intro s
  obtain ⟨t1, he1, hn1⟩ := hm s
  rcases hms : m s with ⟨s1, r⟩
  rw [hms] at he1
  simp only [] at he1
  cases r with
  | ok a =>
    refine ⟨t1, ?_, hn1⟩
    simp only [tryCatchM, hms]
    simpa using he1
  | error e =>
    obtain ⟨t2, he2, hn2⟩ := hh e s1
    refine ⟨t1 ++ t2, ?_, ?_⟩
    · simp only [tryCatchM, hms]
      simp [he2, he1]
    · intro h
      rcases List.mem_append.mp h with h | h
      · exact hn1 h
      · exact hn2 h

theorem noRemove_ite {α : Type} {c : Prop} [Decidable c] {m1 m2 : StageM α}
    (h1 : NoRemove m1) (h2 : NoRemove m2) : NoRemove (if c then m1 else m2) := by
  by_cases hc : c
  · simpa [hc] using h1
  · simpa [hc] using h2

theorem projOk_bindM {α β γ : Type} {pf : Event → Option γ} {m : StageM α}
    {f : α → StageM β} {l1 l2 : List γ}
    (hm : ProjOk pf m l1) (hf : ∀ a, ProjOk pf (f a) l2) :
    ProjOk pf (bindM m f) (l1 ++ l2) := by
  intro s
  obtain ⟨t1, he1, hp1⟩ := hm s
  rcases hms : m s with ⟨s1, r⟩
  rw [hms] at he1 hp1
  simp only [] at he1 hp1
  cases r with
  | ok a =>
    obtain ⟨t2, he2, hp2⟩ := hf a s1
    refine ⟨t1 ++ t2, ?_, ?_⟩
    · simp only [bindM, hms]
      simp [he2, he1]
    · intro h
      simp only [bindM, hms] at h
      simp [List.filterMap_append, hp1 (by simp [isOkE]), hp2 h]
  | error e =>
    refine ⟨t1, ?_, ?_⟩
    · simp only [bindM, hms]
      simpa using he1
    · intro h
      simp only [bindM, hms, isOkE] at h
      exact absurd h (by simp)

theorem projOk_silent {α γ : Type} {pf : Event → Option γ} {m : StageM α}
    (h : ∀ s, (m s).1.events = s.events) : ProjOk pf m [] := by
  intro s
  exact ⟨[], by simp [h s], by simp⟩

theorem projOk_emitEv {γ : Type} {pf : Event → Option γ} (e : Event) :
    ProjOk pf (emitEv e) (pf e).toList := by
  intro s
  refine ⟨[e], by simp [emitEv], ?_⟩
  intro _
  cases h : pf e <;> simp [List.filterMap, h]

theorem projOk_ite {α γ : Type} {pf : Event → Option γ} {c : Prop} [Decidable c]
    {m1 m2 : StageM α} {l : List γ}
    (h1 : ProjOk pf m1 l) (h2 : ProjOk pf m2 l) :
    ProjOk pf (if c then m1 else m2) l := by
  by_cases hc : c
  · simpa [hc] using h1
  · simpa [hc] using h2

theorem presStatus_bindM {α β : Type} {m : StageM α} {f : α → StageM β}
    (hm : PreservesStatus m) (hf : ∀ a, PreservesStatus (f a)) :
    PreservesStatus (bindM m f) := by
  intro s
  have h1 := hm s
  rcases hms : m s with ⟨s1, r⟩
  rw [hms] at h1
  simp only [] at h1
  cases r with
  | ok a =>
    have h2 := hf a s1
    simp only [bindM, hms]
    rw [h2, h1]
  | error e =>
    simp only [bindM, hms]
    simpa using h1

theorem presStatus_silentJob {α : Type} {m : StageM α}
    (h : ∀ s, (m s).1.job = s.job) : PreservesStatus m := by
  intro s
  rw [h s]

theorem presStatus_modifyJobM {f : ConversionJob → ConversionJob}
    (h : ∀ j, (f j).status = j.status) : PreservesStatus (modifyJobM f) := by
  intro s
  simp [modifyJobM, h]

theorem presStatus_updateJobLogs (cfg : RunCfg) (msg : String) :
    PreservesStatus (updateJobLogs cfg msg) := by
  intro s
  simp [updateJobLogs, bindM, getJobM, modifyJobM, emitEv]

theorem presStatus_cleanup (cfg : RunCfg) : PreservesStatus (cleanup cfg) := by
  intro s
  by_cases h : cfg.rmOk = true <;> simp [cleanup, bindM, emitEv, pureM, h]

theorem okStatus_bindM {α β : Type} {m : StageM α} {f : α → StageM β} {st : Status}
    (hf : ∀ a, OkStatus (f a) st) : OkStatus (bindM m f) st := by
  intro s hok
  rcases hms : m s with ⟨s1, r⟩
  simp only [bindM, hms] at hok ⊢
  cases r with
  | ok a =>
    exact hf a s1 hok
  | error e =>
    simp [isOkE] at hok

theorem okStatus_setStatusM {st : Status} {k : Unit → StageM Unit}
    (hk : PreservesStatus (k ())) : OkStatus (bindM (setStatusM st) k) st := by
  intro s _
  have h1 := hk { s with job := { s.job with status := st },
                         events := s.events ++ [Event.statusSet st] }
  simp only [bindM, setStatusM]
  rw [h1]

/- ## NoRemove facts for the individual steps -/

theorem noRemove_getJobM : NoRemove getJobM :=
  noRemove_silent (fun _ => rfl)

theorem noRemove_getStateM : NoRemove getStateM :=
  noRemove_silent (fun _ => rfl)

theorem noRemove_modifyJobM (f : ConversionJob → ConversionJob) :
    NoRemove (modifyJobM f) :=
  noRemove_silent (fun _ => rfl)

theorem noRemove_setFileM (f : WorkFile) (n : Nat) : NoRemove (setFileM f n) :=
  noRemove_silent (fun _ => rfl)

theorem noRemove_setStatusM (st : Status) : NoRemove (setStatusM st) := by
  intro s
  exact ⟨[Event.statusSet st], by simp [setStatusM], by simp⟩

theorem noRemove_awaitPoint (cfg : RunCfg) (cancelAt : Option Nat) (k : Nat) :
    NoRemove (awaitPoint cfg cancelAt k) := by
  intro s
  by_cases hc : cancelAt = some k
  · by_cases hst : s.job.status = Status.processing
    · exact ⟨cancelEvents s.job, by simp [awaitPoint, hc, cancelJobStep, hst], by simp [cancelEvents]⟩
    · exact ⟨[], by simp [awaitPoint, hc, cancelJobStep, hst], by simp⟩
  · exact ⟨[], by simp [awaitPoint, hc], by simp⟩

theorem noRemove_runCommand (ok : Bool) (c : Cmd) : NoRemove (runCommand ok c) :=
  noRemove_bindM (noRemove_emitEv (by simp))
    (fun _ => noRemove_ite (noRemove_pureM _) (noRemove_throwM _))

theorem noRemove_updateJobLogs (cfg : RunCfg) (msg : String) :
    NoRemove (updateJobLogs cfg msg) :=
  noRemove_bindM noRemove_getJobM (fun j =>
  noRemove_bindM (noRemove_modifyJobM _) (fun _ =>
  noRemove_bindM (noRemove_emitEv (by simp)) (fun _ =>
  noRemove_bindM noRemove_getJobM (fun _ =>
  noRemove_emitEv (by simp)))))

theorem noRemove_processGLTF (cfg : RunCfg) : NoRemove (processGLTF cfg) :=
  noRemove_bindM noRemove_getJobM (fun j =>
  noRemove_bindM
    (noRemove_ite
      (noRemove_bindM (noRemove_emitEv (by simp))
        (fun _ => noRemove_ite (noRemove_setFileM _ _) (noRemove_throwM _)))
      (noRemove_bindM (noRemove_runCommand _ _) (fun _ => noRemove_setFileM _ _)))
    (fun _ => noRemove_pureM _))

theorem noRemove_convertFBXtoGLB (cfg : RunCfg) : NoRemove (convertFBXtoGLB cfg) :=
  noRemove_bindM (noRemove_emitEv (by simp)) (fun _ =>
  noRemove_bindM (noRemove_setFileM _ _) (fun _ =>
  noRemove_bindM (noRemove_updateJobLogs _ _) (fun _ =>
  noRemove_bindM (noRemove_runCommand _ _) (fun _ =>
  noRemove_bindM (noRemove_setFileM _ _) (fun _ => noRemove_pureM _)))))

theorem noRemove_convertOBJtoGLB (cfg : RunCfg) : NoRemove (convertOBJtoGLB cfg) :=
  noRemove_bindM (noRemove_emitEv (by simp)) (fun _ =>
  noRemove_bindM (noRemove_setFileM _ _) (fun _ =>
  noRemove_bindM (noRemove_updateJobLogs _ _) (fun _ =>
  noRemove_bindM (noRemove_runCommand _ _) (fun _ =>
  noRemove_bindM (noRemove_setFileM _ _) (fun _ => noRemove_pureM _)))))

theorem noRemove_selectConverter (cfg : RunCfg) (ext : String) :
    NoRemove (selectConverter cfg ext) := by
  unfold selectConverter
  exact noRemove_ite (noRemove_processGLTF cfg)
    (noRemove_ite (noRemove_convertFBXtoGLB cfg)
      (noRemove_ite (noRemove_convertOBJtoGLB cfg) (noRemove_throwM _)))

theorem noRemove_analyzeModel (cfg : RunCfg) (p : FPath) :
    NoRemove (analyzeModel cfg p) := by
  intro s
  refine ⟨[], ?_, by simp⟩
  simp only [analyzeModel, bindM, getStateM]
  cases fileSize cfg s.ws p <;> simp [pureM]

theorem noRemove_optimizeForWebAR (cfg : RunCfg) (p : FPath) :
    NoRemove (optimizeForWebAR cfg p) :=
  noRemove_tryCatchM
    (noRemove_bindM (noRemove_runCommand _ _) (fun _ =>
      noRemove_bindM (noRemove_setFileM _ _) (fun _ => noRemove_pureM _)))
    (fun _ => noRemove_pureM _)

theorem noRemove_generateUSDZ (cfg : RunCfg) : NoRemove (generateUSDZ cfg) :=
  noRemove_bindM
    (noRemove_tryCatchM
      (noRemove_bindM (noRemove_runCommand _ _) (fun _ => noRemove_setFileM _ _))
      (fun _ => noRemove_bindM (noRemove_emitEv (by simp)) (fun _ => noRemove_setFileM _ _)))
    (fun _ => noRemove_pureM _)

theorem noRemove_generateThumbnail (cfg : RunCfg) : NoRemove (generateThumbnail cfg) :=
  noRemove_bindM (noRemove_emitEv (by simp)) (fun _ =>
  noRemove_bindM (noRemove_setFileM _ _) (fun _ =>
  noRemove_bindM
    (noRemove_tryCatchM
      (noRemove_bindM (noRemove_runCommand _ _) (fun _ => noRemove_setFileM _ _))
      (fun _ => noRemove_bindM (noRemove_emitEv (by simp))
        (fun _ => noRemove_ite (noRemove_pureM _) (noRemove_throwM _))))
    (fun _ => noRemove_pureM _)))

theorem noRemove_uploadProcessedModel (cfg : RunCfg) (p : FPath) (modelId fmt : String) :
    NoRemove (uploadProcessedModel cfg p modelId fmt) := by
  intro s
  simp only [uploadProcessedModel, bindM, getStateM]
  cases fileSize cfg s.ws p with
  | none => exact ⟨[], by simp [throwM], by simp⟩
  | some n =>
    by_cases h : cfg.uploadOk = true
    · exact ⟨[Event.uploadFile p fmt], by simp [h, emitEv, pureM, bindM], by simp⟩
    · exact ⟨[], by simp [h, throwM], by simp⟩

theorem noRemove_generateQRCode (cfg : RunCfg) (link : String) :
    NoRemove (generateQRCode cfg link) := by
  unfold generateQRCode
  exact noRemove_ite
    (noRemove_bindM (noRemove_emitEv (by simp)) (fun _ => noRemove_pureM _))
    (noRemove_pureM _)

theorem noRemove_processConversionCatch (cfg : RunCfg) (e : String) :
    NoRemove (processConversionCatch cfg e) :=
  noRemove_bindM (noRemove_setStatusM _) (fun _ =>
  noRemove_bindM (noRemove_modifyJobM _) (fun _ =>
  noRemove_bindM noRemove_getJobM (fun _ =>
  noRemove_bindM (noRemove_emitEv (by simp)) (fun _ =>
  noRemove_updateJobLogs _ _))))

/- ## The cleanup call happens exactly on a normal return of the try body -/

theorem removeIffOk_bindM {α β : Type} {m : StageM α} {f : α → StageM β}
    (hm : NoRemove m) (hf : ∀ a, RemoveIffOk (f a)) : RemoveIffOk (bindM m f) := by
  intro s
  obtain ⟨t1, he1, hn1⟩ := hm s
  rcases hms : m s with ⟨s1, r⟩
  rw [hms] at he1
  simp only [] at he1
  cases r with
  | ok a =>
    obtain ⟨t2, he2, hin2, hout2⟩ := hf a s1
    refine ⟨t1 ++ t2, ?_, ?_, ?_⟩
    · simp only [bindM, hms]
      simp [he2, he1]
    · intro hok
      simp only [bindM, hms] at hok
      exact List.mem_append.mpr (Or.inr (hin2 hok))
    · intro hbad h
      simp only [bindM, hms] at hbad
      rcases List.mem_append.mp h with h | h
      · exact hn1 h
      · exact hout2 hbad h
  | error e =>
    refine ⟨t1, ?_, ?_, fun _ => hn1⟩
    · simp only [bindM, hms]
      simpa using he1
    · intro hok
      simp only [bindM, hms, isOkE] at hok
      exact absurd hok (by simp)

theorem removeIffOk_cleanup (cfg : RunCfg) : RemoveIffOk (cleanup cfg) := by
  intro s
  by_cases h : cfg.rmOk = true <;>
    exact ⟨[Event.removeWorkDir],
      by simp [cleanup, bindM, emitEv, pureM, h],
      fun _ => by simp,
      by simp [cleanup, bindM, emitEv, pureM, h, isOkE]⟩

theorem removeIffOk_pipelineAfterConvert (cfg : RunCfg) (cancelAt : Option Nat)
    (modelId : String) (glbPath : FPath) :
    RemoveIffOk (pipelineAfterConvert cfg cancelAt modelId glbPath) := by
  unfold pipelineAfterConvert
  apply removeIffOk_bindM (noRemove_awaitPoint _ _ _); intro _
  apply removeIffOk_bindM (noRemove_updateJobLogs _ _); intro _
  apply removeIffOk_bindM (noRemove_analyzeModel _ _); intro _
  apply removeIffOk_bindM (noRemove_awaitPoint _ _ _); intro _
  apply removeIffOk_bindM (noRemove_updateJobLogs _ _); intro _
  apply removeIffOk_bindM (noRemove_optimizeForWebAR _ _); intro _
  apply removeIffOk_bindM (noRemove_awaitPoint _ _ _); intro _
  apply removeIffOk_bindM (noRemove_updateJobLogs _ _); intro _
  apply removeIffOk_bindM (noRemove_generateUSDZ _); intro _
  apply removeIffOk_bindM (noRemove_awaitPoint _ _ _); intro _
  apply removeIffOk_bindM (noRemove_updateJobLogs _ _); intro _
  apply removeIffOk_bindM (noRemove_generateThumbnail _); intro _
  apply removeIffOk_bindM (noRemove_awaitPoint _ _ _); intro _
  apply removeIffOk_bindM (noRemove_updateJobLogs _ _); intro _
  apply removeIffOk_bindM (noRemove_uploadProcessedModel _ _ _ _); intro _
  apply removeIffOk_bindM (noRemove_uploadProcessedModel _ _ _ _); intro _
  apply removeIffOk_bindM (noRemove_uploadProcessedModel _ _ _ _); intro _
  apply removeIffOk_bindM (noRemove_modifyJobM _); intro _
  apply removeIffOk_bindM (noRemove_awaitPoint _ _ _); intro _
  apply removeIffOk_bindM (noRemove_updateJobLogs _ _); intro _
  apply removeIffOk_bindM (noRemove_generateQRCode _ _); intro _
  apply removeIffOk_bindM noRemove_getJobM; intro _
  apply removeIffOk_bindM (noRemove_emitEv (by simp)); intro _
  apply removeIffOk_bindM (noRemove_ite (noRemove_pureM _) (noRemove_throwM _)); intro _
  apply removeIffOk_bindM (noRemove_awaitPoint _ _ _); intro _
  apply removeIffOk_bindM (noRemove_setStatusM _); intro _
  apply removeIffOk_bindM (noRemove_modifyJobM _); intro _
  apply removeIffOk_bindM (noRemove_updateJobLogs _ _); intro _
  exact removeIffOk_cleanup cfg

theorem removeIffOk_processConversionBody (cfg : RunCfg) (cancelAt : Option Nat) :
    RemoveIffOk (processConversionBody cfg cancelAt) := by
  unfold processConversionBody
  apply removeIffOk_bindM (noRemove_setStatusM _); intro _
  apply removeIffOk_bindM (noRemove_awaitPoint _ _ _); intro _
  apply removeIffOk_bindM (noRemove_updateJobLogs _ _); intro _
  apply removeIffOk_bindM noRemove_getJobM; intro j
  apply removeIffOk_bindM (noRemove_emitEv (by simp)); intro _
  apply removeIffOk_bindM (noRemove_selectConverter _ _); intro glbPath
  exact removeIffOk_pipelineAfterConvert cfg cancelAt j.modelId glbPath

/- ## Status of the job at the end of the try body and of the catch block -/

theorem okStatus_pipelineAfterConvert (cfg : RunCfg) (cancelAt : Option Nat)
    (modelId : String) (glbPath : FPath) :
    OkStatus (pipelineAfterConvert cfg cancelAt modelId glbPath) Status.complete := by
  unfold pipelineAfterConvert
  apply okStatus_bindM; intro _
  apply okStatus_bindM; intro _
  apply okStatus_bindM; intro _
  apply okStatus_bindM; intro _
  apply okStatus_bindM; intro _
  apply okStatus_bindM; intro _
  apply okStatus_bindM; intro _
  apply okStatus_bindM; intro _
  apply okStatus_bindM; intro _
  apply okStatus_bindM; intro _
  apply okStatus_bindM; intro _
  apply okStatus_bindM; intro _
  apply okStatus_bindM; intro _
  apply okStatus_bindM; intro _
  apply okStatus_bindM; intro _
  apply okStatus_bindM; intro _
  apply okStatus_bindM; intro _
  apply okStatus_bindM; intro _
  apply okStatus_bindM; intro _
  apply okStatus_bindM; intro _
  apply okStatus_bindM; intro _
  apply okStatus_bindM; intro _
  apply okStatus_bindM; intro _
  apply okStatus_bindM; intro _
  apply okStatus_bindM; intro _
  apply okStatus_setStatusM
  exact presStatus_bindM (presStatus_modifyJobM (fun _ => rfl))
    (fun _ => presStatus_bindM (presStatus_updateJobLogs _ _)
      (fun _ => presStatus_cleanup _))

theorem okStatus_processConversionBody (cfg : RunCfg) (cancelAt : Option Nat) :
    OkStatus (processConversionBody cfg cancelAt) Status.complete := by
  unfold processConversionBody
  apply okStatus_bindM; intro _
  apply okStatus_bindM; intro _
  apply okStatus_bindM; intro _
  apply okStatus_bindM; intro j
  apply okStatus_bindM; intro _
  apply okStatus_bindM; intro glbPath
  exact okStatus_pipelineAfterConvert cfg cancelAt j.modelId glbPath

/-- The catch block always returns normally and leaves the job `failed`
with the thrown message recorded. -/
theorem processConversionCatch_eval (cfg : RunCfg) (e : String) (s : RunState) :
    ((processConversionCatch cfg e) s).1.job.status = Status.failed ∧
    ((processConversionCatch cfg e) s).1.job.error = some e ∧
    isOkE ((processConversionCatch cfg e) s).2 = true := by
  refine ⟨?_, ?_, ?_⟩ <;>
    simp [processConversionCatch, bindM, setStatusM, modifyJobM, getJobM, emitEv,
          updateJobLogs, isOkE]

/- ## Outcome of a whole `processConversion` run -/

/-- A run ends `complete` exactly when the try body returned normally,
ends `failed` exactly when it threw, and in the normal case the run's
result is the body's final state. -/
theorem processConversion_outcome (cfg : RunCfg) (cancelAt : Option Nat)
    (job0 : ConversionJob) :
    ((processConversion cfg cancelAt job0).job.status = Status.complete ↔
      isOkE ((processConversionBody cfg cancelAt) { job := job0 }).2 = true) ∧
    ((processConversion cfg cancelAt job0).job.status = Status.failed ↔
      isOkE ((processConversionBody cfg cancelAt) { job := job0 }).2 = false) ∧
    (isOkE ((processConversionBody cfg cancelAt) { job := job0 }).2 = true →
      processConversion cfg cancelAt job0 =
        ((processConversionBody cfg cancelAt) { job := job0 }).1) := by
  rcases hb : (processConversionBody cfg cancelAt) { job := job0 } with ⟨s1, r⟩
  have hst := okStatus_processConversionBody cfg cancelAt { job := job0 }
  rw [hb] at hst
  simp only [] at hst
  cases r with
  | ok a =>
    refine ⟨?_, ?_, ?_⟩ <;>
      simp [processConversion, tryCatchM, hb, isOkE, hst rfl]
  | error e =>
    obtain ⟨hfail, herr, hokc⟩ :=
      processConversionCatch_eval cfg e s1
    refine ⟨?_, ?_, ?_⟩ <;>
      simp [processConversion, tryCatchM, hb, isOkE, hfail]

/-- Cleanup of the working directory is attempted in exactly the runs
that end `complete`; a run that ends `failed` never attempts it; every
run ends in one of the two terminal statuses. -/
theorem processConversion_cleanupIff (cfg : RunCfg) (cancelAt : Option Nat)
    (job0 : ConversionJob) :
    ((processConversion cfg cancelAt job0).job.status = Status.complete ↔
      Event.removeWorkDir ∈ (processConversion cfg cancelAt job0).events) ∧
    ((processConversion cfg cancelAt job0).job.status = Status.failed →
      Event.removeWorkDir ∉ (processConversion cfg cancelAt job0).events) ∧
    ((processConversion cfg cancelAt job0).job.status = Status.complete ∨
     (processConversion cfg cancelAt job0).job.status = Status.failed) := by
  obtain ⟨hciff, hfiff, heq⟩ := processConversion_outcome cfg cancelAt job0
  obtain ⟨t, hte, htin, htout⟩ :=
    removeIffOk_processConversionBody cfg cancelAt { job := job0 }
  rcases hb : (processConversionBody cfg cancelAt) { job := job0 } with ⟨s1, r⟩
  rw [hb] at hciff hfiff heq hte htin htout
  simp only [] at hciff hfiff heq hte htin htout
  cases r with
  | ok a =>
    have h1 : s1.events = t := by simpa using hte
    have heq2 := heq (by simp [isOkE])
    have hs1c : s1.job.status = Status.complete := by
      have h := okStatus_processConversionBody cfg cancelAt { job := job0 }
      rw [hb] at h
      exact h (by simp [isOkE])
    refine ⟨?_, ?_, ?_⟩
    · rw [heq2]
      constructor
      · intro _
        rw [h1]
        exact htin (by simp [isOkE])
      · intro _
        exact hs1c
    · intro hfail
      exact absurd (hfiff.mp hfail) (by simp [isOkE])
    · exact Or.inl (hciff.mpr (by simp [isOkE]))
  | error e =>
    have hfail : (processConversion cfg cancelAt job0).job.status = Status.failed :=
      hfiff.mpr (by simp [isOkE])
    have hnotc : ¬ (processConversion cfg cancelAt job0).job.status = Status.complete := by
      rw [hfail]
      simp
    have h1 : s1.events = t := by simpa using hte
    obtain ⟨t2, hte2, hn2⟩ :=
      noRemove_processConversionCatch cfg e s1
    have hres : (processConversion cfg cancelAt job0).events = t ++ t2 := by
      simp only [processConversion, tryCatchM, hb]
      rw [hte2, h1]
    have hnot : Event.removeWorkDir ∉ (processConversion cfg cancelAt job0).events := by
      rw [hres]
      intro h
      rcases List.mem_append.mp h with h | h
      · exact htout (by simp [isOkE]) h
      · exact hn2 h
    exact ⟨⟨fun h => absurd h hnotc, fun h => absurd h hnot⟩, fun _ => hnot,
      Or.inr hfail⟩

/- ## Claim C1 -/

/-- C1 counterexample: submitting `/uploads/part.stl` (unsupported
extension) does not fail synchronously and does create a job — the call
returns the fresh job id and the registry holds the new record. -/
theorem c1_counterexample :
    (convertModel cfgAllOk [0] [] "m1" "/uploads/part.stl").outcome
        = Except.ok (nanoid 12 [0]) ∧
    (convertModel cfgAllOk [0] [] "m1" "/uploads/part.stl").jobs
        = [(nanoid 12 [0], (convertModel cfgAllOk [0] [] "m1" "/uploads/part.stl").job)] ∧
    (convertModel cfgAllOk [0] [] "m1" "/uploads/part.stl").jobs ≠ [] := by
  decide

/-- C1 amended: for an input whose lower-cased extension is not one of
`.glb/.gltf/.fbx/.obj`, `convertModel` still creates a job, registers it
and returns its id synchronously; the job then fails asynchronously with
the `Unsupported file format` error. -/
theorem c1_amended_theorem (cfg : RunCfg) (jobSeed : List Nat)
    (jobs0 : List (String × ConversionJob)) (modelId p : String)
    (hst : cfg.storageOk = true)
    (h1 : lowerStr (extname p) ≠ ".glb") (h2 : lowerStr (extname p) ≠ ".gltf")
    (h3 : lowerStr (extname p) ≠ ".fbx") (h4 : lowerStr (extname p) ≠ ".obj") :
    (convertModelFull cfg jobSeed none jobs0 modelId p).outcome
        = Except.ok (nanoid 12 jobSeed) ∧
    (convertModelFull cfg jobSeed none jobs0 modelId p).jobs
        = jobs0 ++ [(nanoid 12 jobSeed, (convertModelFull cfg jobSeed none jobs0 modelId p).job)] ∧
    (convertModelFull cfg jobSeed none jobs0 modelId p).job.status = Status.failed ∧
    (convertModelFull cfg jobSeed none jobs0 modelId p).job.error
        = some ("Unsupported file format: " ++ lowerStr (extname p)) := by
  simp [convertModelFull, convertModel, hst, processConversion, processConversionBody,
        processConversionCatch, selectConverter, h1, h2, h3, h4, bindM, pureM, throwM,
        tryCatchM, emitEv, getJobM, getStateM, modifyJobM, setStatusM, updateJobLogs,
        awaitPoint]

/-- C1 witness: the amended theorem at the `.stl` fixture. -/
theorem c1_witness :
    (convertModelFull cfgAllOk [0] none [] "m1" "/uploads/part.stl").outcome
        = Except.ok (nanoid 12 [0]) ∧
    (convertModelFull cfgAllOk [0] none [] "m1" "/uploads/part.stl").jobs
        = [] ++ [(nanoid 12 [0], (convertModelFull cfgAllOk [0] none [] "m1" "/uploads/part.stl").job)] ∧
    (convertModelFull cfgAllOk [0] none [] "m1" "/uploads/part.stl").job.status = Status.failed ∧
    (convertModelFull cfgAllOk [0] none [] "m1" "/uploads/part.stl").job.error
        = some ("Unsupported file format: " ++ lowerStr (extname "/uploads/part.stl")) :=
  c1_amended_theorem cfgAllOk [0] [] "m1" "/uploads/part.stl"
    (by decide) (by decide) (by decide) (by decide) (by decide)

/- ## Claim C2 -/

/-- C2 counterexample: a job cancelled at the suspension just before the
final status assignment reaches the terminal `failed` state, yet the
pipeline's final transition later flips it to `complete` (the
cancellation error message even survives on the completed job). -/
theorem c2_counterexample :
    (processConversion cfgAllOk (some 7) jobGlb).job.status = Status.complete ∧
    (processConversion cfgAllOk (some 7) jobGlb).job.error = some "Job cancelled by user" ∧
    Event.statusSet Status.failed ∈ (processConversion cfgAllOk (some 7) jobGlb).events ∧
    (processConversion cfgAllOk (some 7) jobGlb).events.findIdx
        (fun e => e = Event.statusSet Status.failed) <
      (processConversion cfgAllOk (some 7) jobGlb).events.findIdx
        (fun e => e = Event.statusSet Status.complete) := by
  decide

/-- C2 amended: `cancelJob` itself never changes a job that is already
terminal, but the pipeline's stage transitions do not re-check the
status: a cancellation delivered at any suspension of a run whose
remaining stages succeed is overwritten and the job ends `complete`. -/
theorem c2_amended_theorem :
    (∀ (t : Nat) (j : ConversionJob),
        j.status = Status.complete ∨ j.status = Status.failed →
        cancelJobStep t j = (j, [])) ∧
    (∀ k : Nat, k ≤ 7 →
        (processConversion cfgAllOk (some k) jobGlb).job.status = Status.complete) := by
  constructor
  · intro t j h
    rcases h with h | h <;> simp [cancelJobStep, h]
  · intro k hk
    interval_cases k <;> decide

/-- C2 witness: the amended theorem applied to an already-complete job
and to a cancellation delivered at suspension 7. -/
theorem c2_witness :
    cancelJobStep 5000 jobDone = (jobDone, []) ∧
    (processConversion cfgAllOk (some 7) jobGlb).job.status = Status.complete :=
  ⟨c2_amended_theorem.1 5000 jobDone (Or.inl (by decide)),
   c2_amended_theorem.2 7 (by decide)⟩

/- ## Claim C3 -/

/-- C3 counterexample: a job whose converter tool fails ends `failed`
and its working directory is never removed. -/
theorem c3_counterexample :
    (processConversion { cfgAllOk with gltfPipelineOk := false } none jobGltf).job.status
        = Status.failed ∧
    Event.removeWorkDir ∉
      (processConversion { cfgAllOk with gltfPipelineOk := false } none jobGltf).events := by
  decide

/-- C3 amended: for every run of the pipeline, the working directory is
removed (best-effort) exactly when the job ends `complete`; a job that
ends `failed` — the only other terminal outcome — never has its working
directory removed. -/
theorem c3_amended_theorem (cfg : RunCfg) (cancelAt : Option Nat) (job0 : ConversionJob) :
    ((processConversion cfg cancelAt job0).job.status = Status.complete ↔
      Event.removeWorkDir ∈ (processConversion cfg cancelAt job0).events) ∧
    ((processConversion cfg cancelAt job0).job.status = Status.failed →
      Event.removeWorkDir ∉ (processConversion cfg cancelAt job0).events) ∧
    ((processConversion cfg cancelAt job0).job.status = Status.complete ∨
     (processConversion cfg cancelAt job0).job.status = Status.failed) :=
  processConversion_cleanupIff cfg cancelAt job0

/-- C3 witness: the amended theorem at a failing `.gltf` conversion. -/
theorem c3_witness :
    Event.removeWorkDir ∉
      (processConversion { cfgAllOk with gltfPipelineOk := false } none jobGltf).events :=
  (c3_amended_theorem { cfgAllOk with gltfPipelineOk := false } none jobGltf).2.1 (by decide)

/- ## Claim C6 -/

/-- C6: on a Blender render failure the thumbnail stage calls the upload
service's placeholder generator with empty model path and empty model id,
discards its result, and returns the `thumbnail.jpg` path even though
that file was never created; the whole job then fails when the upload
stage tries to read it. -/
theorem c6_theorem :
    (generateThumbnail { cfgAllOk with thumbRenderOk := false } { job := jobGlb }).2
        = Except.ok (FPath.work WorkFile.thumbnailJpg) ∧
    (generateThumbnail { cfgAllOk with thumbRenderOk := false } { job := jobGlb }).1.ws.thumbnailJpg
        = none ∧
    Event.placeholderThumb "" "" ∈
      (generateThumbnail { cfgAllOk with thumbRenderOk := false } { job := jobGlb }).1.events ∧
    (processConversion { cfgAllOk with thumbRenderOk := false } none jobGlb).job.status
        = Status.failed ∧
    (processConversion { cfgAllOk with thumbRenderOk := false } none jobGlb).job.error
        = some "Failed to upload processed JPG file" := by
  decide

/- ## Claim C7 -/

/-- C7: a failing optimizer invocation is absorbed by the stage — the
command attempt is logged in the trace, the original GLB path is
returned unchanged, job and workspace are untouched — and a job run with
a failing optimizer still ends `complete` with a non-empty GLB output
URL. -/
theorem c7_theorem (cfg : RunCfg) (p : FPath) (s : RunState)
    (hopt : cfg.optimizeOk = false) :
    (optimizeForWebAR cfg p s).2 = Except.ok p ∧
    (optimizeForWebAR cfg p s).1.events
        = s.events ++ [Event.runCmd Cmd.gltfPipelineOptimize] ∧
    (optimizeForWebAR cfg p s).1.job = s.job ∧
    (optimizeForWebAR cfg p s).1.ws = s.ws ∧
    (processConversion { cfgAllOk with optimizeOk := false } none jobGlb).job.status
        = Status.complete ∧
    (processConversion { cfgAllOk with optimizeOk := false } none jobGlb).job.outputFiles.glb.isSome
        = true ∧
    (processConversion { cfgAllOk with optimizeOk := false } none jobGlb).job.outputFiles.glb
        ≠ some "" := by
  refine ⟨?_, ?_, ?_, ?_, by decide, by decide, by decide⟩ <;>
    simp [optimizeForWebAR, tryCatchM, bindM, runCommand, emitEv, pureM, throwM,
          setFileM, hopt]

/-- C7 witness: the stage-level facts at a concrete failing optimizer. -/
theorem c7_witness :
    (optimizeForWebAR { cfgAllOk with optimizeOk := false } FPath.input { job := jobGlb }).2
        = Except.ok FPath.input ∧
    (optimizeForWebAR { cfgAllOk with optimizeOk := false } FPath.input { job := jobGlb }).1.events
        = ({ job := jobGlb } : RunState).events ++ [Event.runCmd Cmd.gltfPipelineOptimize] ∧
    (optimizeForWebAR { cfgAllOk with optimizeOk := false } FPath.input { job := jobGlb }).1.job
        = ({ job := jobGlb } : RunState).job ∧
    (optimizeForWebAR { cfgAllOk with optimizeOk := false } FPath.input { job := jobGlb }).1.ws
        = ({ job := jobGlb } : RunState).ws ∧
    (processConversion { cfgAllOk with optimizeOk := false } none jobGlb).job.status
        = Status.complete ∧
    (processConversion { cfgAllOk with optimizeOk := false } none jobGlb).job.outputFiles.glb.isSome
        = true ∧
    (processConversion { cfgAllOk with optimizeOk := false } none jobGlb).job.outputFiles.glb
        ≠ some "" :=
  c7_theorem { cfgAllOk with optimizeOk := false } FPath.input { job := jobGlb } (by decide)

/- ## Claim C8 -/

/-- C8: a sweep removes every registry entry whose `endTime` lies more
than 24 hours before `now`, keeps every job still in progress (no
`endTime`), and keeps every finished job whose `endTime` is within the
24-hour window. -/
theorem c8_theorem (now : Nat) (jobs : List (String × ConversionJob))
    (id : String) (j : ConversionJob) (hmem : (id, j) ∈ jobs) :
    (∀ e, j.endTime = some e → e + 24 * 60 * 60 * 1000 < now →
        (id, j) ∉ cleanupOldJobs now jobs) ∧
    (j.endTime = none → (id, j) ∈ cleanupOldJobs now jobs) ∧
    (∀ e, j.endTime = some e → now ≤ e + 24 * 60 * 60 * 1000 →
        (id, j) ∈ cleanupOldJobs now jobs) := by
  refine ⟨?_, ?_, ?_⟩
  · intro e he hlt h
    have hk := (List.mem_filter.mp h).2
    simp [keepJob, he] at hk
    omega
  · intro he
    exact List.mem_filter.mpr ⟨hmem, by simp [keepJob, he]⟩
  · intro e he hle
    refine List.mem_filter.mpr ⟨hmem, ?_⟩
    simp [keepJob, he]
    omega

/-- C8 witness: a registry with one expired and one fresh job, swept a
hair past the expiry boundary of the first. -/
theorem c8_witness :
    ("job000000005", jobDone) ∉
      cleanupOldJobs 90000001 [("job000000005", jobDone), ("j2", jobGlb)] ∧
    ("j2", jobGlb) ∈
      cleanupOldJobs 90000001 [("job000000005", jobDone), ("j2", jobGlb)] :=
  ⟨(c8_theorem 90000001 [("job000000005", jobDone), ("j2", jobGlb)] "job000000005" jobDone
      (by decide)).1 3600000 (by decide) (by decide),
   (c8_theorem 90000001 [("job000000005", jobDone), ("j2", jobGlb)] "j2" jobGlb
      (by decide)).2.1 (by decide)⟩

/- ## Claim C9 -/

/-- C9: a file whose raw extension is not the lower-case `.glb` but
lower-cases to `.glb` (for example `.GLB`) is dispatched to the GLTF
converter, which then routes it through the external gltf-pipeline tool
instead of byte-copying it; the concrete `.GLB` run confirms the command
in the trace and the absence of any copy. -/
theorem c9_theorem (cfg : RunCfg) (s : RunState)
    (hraw : extname s.job.inputFile ≠ ".glb")
    (hlow : lowerStr (extname s.job.inputFile) = ".glb") :
    selectConverter cfg (lowerStr (extname s.job.inputFile)) = processGLTF cfg ∧
    (processGLTF cfg s).1.events = s.events ++ [Event.runCmd Cmd.gltfPipelineConvert] ∧
    (cfg.gltfPipelineOk = true →
      (processGLTF cfg s).2 = Except.ok (FPath.work WorkFile.modelGlb)) ∧
    Event.runCmd Cmd.gltfPipelineConvert ∈
      (processConversion cfgAllOk none jobUpperGlb).events ∧
    noCopyEv (processConversion cfgAllOk none jobUpperGlb).events = true := by
  refine ⟨?_, ?_, ?_, by decide, by decide⟩
  · simp [selectConverter, hlow]
  · cases hok : cfg.gltfPipelineOk <;>
      simp [processGLTF, bindM, pureM, throwM, emitEv, getJobM, setFileM, runCommand,
            hraw, hok]
  · intro hok
    simp [processGLTF, bindM, pureM, throwM, emitEv, getJobM, setFileM, runCommand,
          hraw, hok]

/-- C9 witness: the theorem at the upper-cased `.GLB` fixture. -/
theorem c9_witness :
    selectConverter cfgAllOk (lowerStr (extname (({ job := jobUpperGlb } : RunState)).job.inputFile))
        = processGLTF cfgAllOk ∧
    (processGLTF cfgAllOk { job := jobUpperGlb }).1.events
        = ({ job := jobUpperGlb } : RunState).events ++ [Event.runCmd Cmd.gltfPipelineConvert] ∧
    (cfgAllOk.gltfPipelineOk = true →
      (processGLTF cfgAllOk { job := jobUpperGlb }).2
          = Except.ok (FPath.work WorkFile.modelGlb)) ∧
    Event.runCmd Cmd.gltfPipelineConvert ∈
      (processConversion cfgAllOk none jobUpperGlb).events ∧
    noCopyEv (processConversion cfgAllOk none jobUpperGlb).events = true :=
  c9_theorem cfgAllOk { job := jobUpperGlb } (by decide) (by decide)

/- ## Claim C4 (counterexample) and Claim C5 (counterexample) -/

/-- C4 counterexample: model `mA` is uploaded and receives the
8-character identifier generated from seed `[1,...,8]`; the conversion
of a different model (`m1`) draws the same randomness and persists
exactly that identifier again — no collision check against existing
identifiers happens before persistence. -/
theorem c4_counterexample :
    (uploadModelHandler cfgAllOk [1, 2, 3, 4, 5, 6, 7, 8] [7] none []
        "mA" "/uploads/a.glb" "https://cdn/a").1.shortLink
      = nanoid 8 [1, 2, 3, 4, 5, 6, 7, 8] ∧
    persistedShortLinks (processConversion cfgAllOk none jobGlb).events
      = [nanoid 8 [1, 2, 3, 4, 5, 6, 7, 8]] := by
  decide

/-- C5 counterexample: in a fully successful run the `Analyzing model...`
stage log precedes both the optimize and the thumbnail stage logs —
metadata analysis runs directly after conversion, not after the
thumbnail stage as claimed. -/
theorem c5_counterexample :
    Event.logLine "Analyzing model..." ∈ (processConversion cfgAllOk none jobGlb).events ∧
    Event.logLine "Creating thumbnail..." ∈ (processConversion cfgAllOk none jobGlb).events ∧
    firstLogIdx (processConversion cfgAllOk none jobGlb).events "Analyzing model..."
        < firstLogIdx (processConversion cfgAllOk none jobGlb).events "Optimizing for WebAR..." ∧
    firstLogIdx (processConversion cfgAllOk none jobGlb).events "Analyzing model..."
        < firstLogIdx (processConversion cfgAllOk none jobGlb).events "Creating thumbnail..." := by
  decide

/- ## Claim C10 -/

theorem nanoid_length (n : Nat) (seed : List Nat) : (nanoid n seed).length = n := by
  simp [nanoid, String.length]

set_option maxHeartbeats 1600000 in
/-- C10: the upload route answers with the short link minted at upload
time, but a successful conversion's final persistence write replaces the
row's short link with a freshly generated 8-character identifier and
stores the QR code URL minted for that new identifier; whenever the two
random identifiers differ, the persisted link no longer matches the one
returned to the uploader. -/
theorem c10_theorem (cfg : RunCfg) (linkSeed jobSeed : List Nat)
    (jobs0 : List (String × ConversionJob)) (modelId p fileUrl : String)
    (hraw : extname p = ".glb")
    (hcopy : cfg.copyOk = true) (hthumb : cfg.thumbRenderOk = true)
    (hupload : cfg.uploadOk = true) (hstore : cfg.storageOk = true)
    (hqr : cfg.qrOk = true) :
    (uploadModelHandler cfg linkSeed jobSeed none jobs0 modelId p fileUrl).1.shortLink
        = nanoid 8 linkSeed ∧
    (applyEvents modelId
        (uploadModelHandler cfg linkSeed jobSeed none jobs0 modelId p fileUrl).1
        (uploadModelHandler cfg linkSeed jobSeed none jobs0 modelId p fileUrl).2.1).shortLink
        = nanoid 8 cfg.seed ∧
    (applyEvents modelId
        (uploadModelHandler cfg linkSeed jobSeed none jobs0 modelId p fileUrl).1
        (uploadModelHandler cfg linkSeed jobSeed none jobs0 modelId p fileUrl).2.1).qrCodeUrl
        = some ("https://cdn.nexora.app/qr/" ++ nanoid 8 cfg.seed ++ ".png") ∧
    (nanoid 8 cfg.seed).length = 8 ∧
    (nanoid 8 cfg.seed ≠ nanoid 8 linkSeed →
      (applyEvents modelId
          (uploadModelHandler cfg linkSeed jobSeed none jobs0 modelId p fileUrl).1
          (uploadModelHandler cfg linkSeed jobSeed none jobs0 modelId p fileUrl).2.1).shortLink
        ≠ (uploadModelHandler cfg linkSeed jobSeed none jobs0 modelId p fileUrl).1.shortLink) := by
  have h1 : (uploadModelHandler cfg linkSeed jobSeed none jobs0 modelId p fileUrl).1.shortLink
      = nanoid 8 linkSeed := by
    simp [uploadModelHandler]
  have h23 : (applyEvents modelId
        (uploadModelHandler cfg linkSeed jobSeed none jobs0 modelId p fileUrl).1
        (uploadModelHandler cfg linkSeed jobSeed none jobs0 modelId p fileUrl).2.1).shortLink
        = nanoid 8 cfg.seed ∧
      (applyEvents modelId
        (uploadModelHandler cfg linkSeed jobSeed none jobs0 modelId p fileUrl).1
        (uploadModelHandler cfg linkSeed jobSeed none jobs0 modelId p fileUrl).2.1).qrCodeUrl
        = some ("https://cdn.nexora.app/qr/" ++ nanoid 8 cfg.seed ++ ".png") := by
    cases h5 : cfg.optimizeOk <;> cases h6 : cfg.usdzOk <;> cases h7 : cfg.rmOk <;>
      simp [uploadModelHandler, convertModelFull, convertModel, applyEvents, applyUpdate,
            processConversion, processConversionBody, pipelineAfterConvert,
            processConversionCatch, selectConverter, processGLTF, convertFBXtoGLB,
            convertOBJtoGLB, optimizeForWebAR, generateUSDZ, generateThumbnail,
            analyzeModel, generateQRCode, uploadProcessedModel, cleanup, runCommand,
            updateJobLogs, awaitPoint, setStatusM, emitEv, getJobM, getStateM,
            modifyJobM, setFileM, bindM, pureM, throwM, tryCatchM, fileSize,
            Workspace.get, Workspace.set, lowerStr,
            hraw, hcopy, hthumb, hupload, hstore, hqr, h5, h6, h7]
  refine ⟨h1, h23.1, h23.2, nanoid_length 8 cfg.seed, ?_⟩
  intro hne
  rw [h1, h23.1]
  exact hne

/-- C10 witness: the theorem at concrete seeds that differ. -/
theorem c10_witness :
    (uploadModelHandler cfgAllOk [20] [7] none [] "m1" "/uploads/burger.glb" "u0").1.shortLink
        = nanoid 8 [20] ∧
    (applyEvents "m1"
        (uploadModelHandler cfgAllOk [20] [7] none [] "m1" "/uploads/burger.glb" "u0").1
        (uploadModelHandler cfgAllOk [20] [7] none [] "m1" "/uploads/burger.glb" "u0").2.1).shortLink
        = nanoid 8 cfgAllOk.seed ∧
    (applyEvents "m1"
        (uploadModelHandler cfgAllOk [20] [7] none [] "m1" "/uploads/burger.glb" "u0").1
        (uploadModelHandler cfgAllOk [20] [7] none [] "m1" "/uploads/burger.glb" "u0").2.1).qrCodeUrl
        = some ("https://cdn.nexora.app/qr/" ++ nanoid 8 cfgAllOk.seed ++ ".png") ∧
    (nanoid 8 cfgAllOk.seed).length = 8 ∧
    (nanoid 8 cfgAllOk.seed ≠ nanoid 8 [20] →
      (applyEvents "m1"
          (uploadModelHandler cfgAllOk [20] [7] none [] "m1" "/uploads/burger.glb" "u0").1
          (uploadModelHandler cfgAllOk [20] [7] none [] "m1" "/uploads/burger.glb" "u0").2.1).shortLink
        ≠ (uploadModelHandler cfgAllOk [20] [7] none [] "m1" "/uploads/burger.glb" "u0").1.shortLink) :=
  c10_theorem cfgAllOk [20] [7] [] "m1" "/uploads/burger.glb" "u0"
    (by decide) (by decide) (by decide) (by decide) (by decide) (by decide)

/- ## Projection lemmas for the individual steps -/

theorem filterMap_singleton {γ : Type} (pf : Event → Option γ) (e : Event) :
    List.filterMap pf [e] = (pf e).toList := by
  cases h : pf e <;> simp [h]

theorem projOk_bindM_pure {α β γ : Type} {pf : Event → Option γ} {v : α}
    {f : α → StageM β} {l : List γ}
    (h : ProjOk pf (f v) l) : ProjOk pf (bindM (pureM v) f) l := by
  intro s
  exact h s

theorem projOk_emitEv_of {γ : Type} {pf : Event → Option γ} {e : Event} {v : Option γ}
    (h : pf e = v) : ProjOk pf (emitEv e) v.toList := by
  intro s
  refine ⟨[e], by simp [emitEv], ?_⟩
  intro _
  rw [filterMap_singleton, h]

theorem projOk_setStatusM {γ : Type} (pf : Event → Option γ) (st : Status) :
    ProjOk pf (setStatusM st) (pf (Event.statusSet st)).toList := by
  intro s
  refine ⟨[Event.statusSet st], by simp [setStatusM], ?_⟩
  intro _
  rw [filterMap_singleton]

theorem projOk_getJobM {γ : Type} (pf : Event → Option γ) : ProjOk pf getJobM [] :=
  projOk_silent (fun _ => rfl)

theorem projOk_getStateM {γ : Type} (pf : Event → Option γ) : ProjOk pf getStateM [] :=
  projOk_silent (fun _ => rfl)

theorem projOk_modifyJobM {γ : Type} (pf : Event → Option γ)
    (f : ConversionJob → ConversionJob) : ProjOk pf (modifyJobM f) [] :=
  projOk_silent (fun _ => rfl)

theorem projOk_setFileM {γ : Type} (pf : Event → Option γ) (f : WorkFile) (n : Nat) :
    ProjOk pf (setFileM f n) [] :=
  projOk_silent (fun _ => rfl)

theorem projOk_pureM {α γ : Type} (pf : Event → Option γ) (a : α) :
    ProjOk pf (pureM a) [] :=
  projOk_silent (fun _ => rfl)

theorem projOk_throwM {α γ : Type} (pf : Event → Option γ) (e : String) :
    ProjOk pf (throwM (α := α) e) [] :=
  projOk_silent (fun _ => rfl)

theorem projOk_awaitPoint {γ : Type} {pf : Event → Option γ}
    (cfg : RunCfg) (cancelAt : Option Nat) (k : Nat)
    (h1 : pf (Event.statusSet Status.failed) = none)
    (h2 : ∀ mid lg, pf (Event.storageUpdate mid
        { status := some "failed", processingLogs := some lg }) = none) :
    ProjOk pf (awaitPoint cfg cancelAt k) [] := by
  intro s
  by_cases hc : cancelAt = some k
  · by_cases hst : s.job.status = Status.processing
    · refine ⟨cancelEvents s.job, by simp [awaitPoint, hc, cancelJobStep, hst], ?_⟩
      intro _
      simp [cancelEvents, h1, h2]
    · exact ⟨[], by simp [awaitPoint, hc, cancelJobStep, hst], by simp⟩
  · exact ⟨[], by simp [awaitPoint, hc], by simp⟩

theorem projOk_updateJobLogs {γ : Type} {pf : Event → Option γ}
    (cfg : RunCfg) (msg : String)
    (h : ∀ mid lg, pf (Event.storageUpdate mid { processingLogs := some lg }) = none) :
    ProjOk pf (updateJobLogs cfg msg) (pf (Event.logLine msg)).toList := by
  intro s
  refine ⟨[Event.logLine msg,
           Event.storageUpdate s.job.modelId
             { processingLogs := some (s.job.logs
                 ++ ["[" ++ toString cfg.time ++ "] " ++ msg]) }],
    by simp [updateJobLogs, bindM, getJobM, modifyJobM, emitEv], ?_⟩
  intro _
  cases hm : pf (Event.logLine msg) <;> simp [hm, h]

theorem projOk_runCommand {γ : Type} {pf : Event → Option γ} (ok : Bool) (c : Cmd)
    (h : pf (Event.runCmd c) = none) : ProjOk pf (runCommand ok c) [] := by
  intro s
  by_cases hok : ok = true <;>
    exact ⟨[Event.runCmd c],
      by simp [runCommand, bindM, emitEv, pureM, throwM, hok],
      fun _ => by simp [h]⟩

theorem projOk_processGLTF {γ : Type} {pf : Event → Option γ} (cfg : RunCfg)
    (hc : ∀ src dst, pf (Event.copyFile src dst) = none)
    (hr : pf (Event.runCmd Cmd.gltfPipelineConvert) = none) :
    ProjOk pf (processGLTF cfg) [] := by
  intro s
  by_cases hg : extname s.job.inputFile = ".glb"
  · by_cases hcp : cfg.copyOk = true <;>
      exact ⟨[Event.copyFile s.job.inputFile (FPath.work WorkFile.modelGlb)],
        by simp [processGLTF, bindM, getJobM, emitEv, setFileM, pureM, throwM, hg, hcp],
        fun _ => by simp [hc]⟩
  · by_cases hgp : cfg.gltfPipelineOk = true <;>
      exact ⟨[Event.runCmd Cmd.gltfPipelineConvert],
        by simp [processGLTF, bindM, getJobM, emitEv, setFileM, pureM, throwM,
                 runCommand, hg, hgp],
        fun _ => by simp [hr]⟩

theorem projOk_convertFBXtoGLB {γ : Type} (pf : Event → Option γ) (cfg : RunCfg)
    (hw : ∀ q, pf (Event.writeFile q) = none)
    (hu : ∀ mid lg, pf (Event.storageUpdate mid { processingLogs := some lg }) = none)
    (hr : pf (Event.runCmd Cmd.blenderFBX) = none) :
    ProjOk pf (convertFBXtoGLB cfg) (pf (Event.logLine "Converting FBX to GLB...")).toList := by
  intro s
  by_cases hb : cfg.blenderOk = true <;>
    refine ⟨[Event.writeFile (FPath.work WorkFile.convertPy),
             Event.logLine "Converting FBX to GLB...",
             Event.storageUpdate s.job.modelId
               { processingLogs := some (s.job.logs
                   ++ ["[" ++ toString cfg.time ++ "] " ++ "Converting FBX to GLB..."]) },
             Event.runCmd Cmd.blenderFBX],
      by simp [convertFBXtoGLB, bindM, emitEv, setFileM, updateJobLogs, getJobM,
               modifyJobM, runCommand, pureM, throwM, hb],
      fun _ => by
        cases hm : pf (Event.logLine "Converting FBX to GLB...") <;>
          simp [hw, hu, hr, hm]⟩

theorem projOk_convertOBJtoGLB {γ : Type} (pf : Event → Option γ) (cfg : RunCfg)
    (hw : ∀ q, pf (Event.writeFile q) = none)
    (hu : ∀ mid lg, pf (Event.storageUpdate mid { processingLogs := some lg }) = none)
    (hr : pf (Event.runCmd Cmd.blenderOBJ) = none) :
    ProjOk pf (convertOBJtoGLB cfg) (pf (Event.logLine "Converting OBJ to GLB...")).toList := by
  intro s
  by_cases hb : cfg.blenderOk = true <;>
    refine ⟨[Event.writeFile (FPath.work WorkFile.convertPy),
             Event.logLine "Converting OBJ to GLB...",
             Event.storageUpdate s.job.modelId
               { processingLogs := some (s.job.logs
                   ++ ["[" ++ toString cfg.time ++ "] " ++ "Converting OBJ to GLB..."]) },
             Event.runCmd Cmd.blenderOBJ],
      by simp [convertOBJtoGLB, bindM, emitEv, setFileM, updateJobLogs, getJobM,
               modifyJobM, runCommand, pureM, throwM, hb],
      fun _ => by
        cases hm : pf (Event.logLine "Converting OBJ to GLB...") <;>
          simp [hw, hu, hr, hm]⟩

theorem projOk_analyzeModel {γ : Type} (pf : Event → Option γ) (cfg : RunCfg) (p : FPath) :
    ProjOk pf (analyzeModel cfg p) [] := by
  intro s
  refine ⟨[], ?_, by simp⟩
  simp only [analyzeModel, bindM, getStateM]
  cases fileSize cfg s.ws p <;> simp [pureM]

theorem projOk_optimizeForWebAR {γ : Type} {pf : Event → Option γ} (cfg : RunCfg) (p : FPath)
    (hr : pf (Event.runCmd Cmd.gltfPipelineOptimize) = none) :
    ProjOk pf (optimizeForWebAR cfg p) [] := by
  intro s
  by_cases hok : cfg.optimizeOk = true <;>
    exact ⟨[Event.runCmd Cmd.gltfPipelineOptimize],
      by simp [optimizeForWebAR, tryCatchM, bindM, runCommand, emitEv, setFileM,
               pureM, throwM, hok],
      fun _ => by simp [hr]⟩

theorem projOk_generateUSDZ {γ : Type} {pf : Event → Option γ} (cfg : RunCfg)
    (hr : pf (Event.runCmd Cmd.usdFromGltf) = none)
    (hw : ∀ q, pf (Event.writeFile q) = none) :
    ProjOk pf (generateUSDZ cfg) [] := by
  intro s
  by_cases hok : cfg.usdzOk = true
  · exact ⟨[Event.runCmd Cmd.usdFromGltf],
      by simp [generateUSDZ, tryCatchM, bindM, runCommand, emitEv, setFileM,
               pureM, throwM, hok],
      fun _ => by simp [hr]⟩
  · exact ⟨[Event.runCmd Cmd.usdFromGltf, Event.writeFile (FPath.work WorkFile.modelUsdz)],
      by simp [generateUSDZ, tryCatchM, bindM, runCommand, emitEv, setFileM,
               pureM, throwM, hok],
      fun _ => by simp [hr, hw]⟩

theorem projOk_generateThumbnail {γ : Type} {pf : Event → Option γ} (cfg : RunCfg)
    (hw : ∀ q, pf (Event.writeFile q) = none)
    (hr : pf (Event.runCmd Cmd.blenderThumbnail) = none)
    (hp : ∀ a b, pf (Event.placeholderThumb a b) = none) :
    ProjOk pf (generateThumbnail cfg) [] := by
  intro s
  by_cases hok : cfg.thumbRenderOk = true
  · exact ⟨[Event.writeFile (FPath.work WorkFile.thumbnailPy),
            Event.runCmd Cmd.blenderThumbnail],
      by simp [generateThumbnail, tryCatchM, bindM, runCommand, emitEv, setFileM,
               pureM, throwM, hok],
      fun _ => by simp [hw, hr]⟩
  · by_cases hup : cfg.uploadOk = true <;>
      exact ⟨[Event.writeFile (FPath.work WorkFile.thumbnailPy),
              Event.runCmd Cmd.blenderThumbnail,
              Event.placeholderThumb "" ""],
        by simp [generateThumbnail, tryCatchM, bindM, runCommand, emitEv, setFileM,
                 pureM, throwM, hok, hup],
        fun _ => by simp [hw, hr, hp]⟩

theorem projOk_uploadProcessedModel {γ : Type} {pf : Event → Option γ} (cfg : RunCfg)
    (p : FPath) (modelId fmt : String)
    (hu : ∀ q f2, pf (Event.uploadFile q f2) = none) :
    ProjOk pf (uploadProcessedModel cfg p modelId fmt) [] := by
  intro s
  simp only [uploadProcessedModel, bindM, getStateM]
  cases fileSize cfg s.ws p with
  | none => exact ⟨[], by simp [throwM], by simp⟩
  | some n =>
    by_cases hok : cfg.uploadOk = true
    · exact ⟨[Event.uploadFile p fmt],
        by simp [hok, emitEv, pureM, bindM], fun _ => by simp [hu]⟩
    · exact ⟨[], by simp [hok, throwM], by simp⟩

theorem projOk_generateQRCode {γ : Type} (pf : Event → Option γ) (cfg : RunCfg)
    (link : String) :
    ProjOk pf (generateQRCode cfg link)
      (if cfg.qrOk = true then
        (pf (Event.qrGenerated (cfg.baseUrl ++ "/ar/" ++ link) link)).toList
       else []) := by
  intro s
  by_cases hok : cfg.qrOk = true
  · refine ⟨[Event.qrGenerated (cfg.baseUrl ++ "/ar/" ++ link) link],
      by simp [generateQRCode, bindM, emitEv, pureM, hok], ?_⟩
    intro _
    rw [filterMap_singleton]
    simp [hok]
  · exact ⟨[], by simp [generateQRCode, pureM, hok], by simp [hok]⟩

theorem projOk_cleanup {γ : Type} {pf : Event → Option γ} (cfg : RunCfg)
    (h : pf Event.removeWorkDir = none) : ProjOk pf (cleanup cfg) [] := by
  intro s
  by_cases hok : cfg.rmOk = true <;>
    exact ⟨[Event.removeWorkDir],
      by simp [cleanup, bindM, emitEv, pureM, hok],
      fun _ => by simp [h]⟩

/- ## Master projection of the post-converter pipeline -/

/-- On a normal return, the events appended by the post-converter
pipeline project (under any `pf` blind to tool, file, upload and cancel
events) to: the six stage log lines, the QR generation when enabled,
the final persistence write's value `F`, the `complete` transition and
the closing log line — in that order. -/
theorem projOk_pipelineAfterConvert {γ : Type} (pf : Event → Option γ)
    (cfg : RunCfg) (cancelAt : Option Nat) (modelId : String) (glbPath : FPath)
    (F : Option γ)
    (hSF : pf (Event.statusSet Status.failed) = none)
    (hCU : ∀ mid lg, pf (Event.storageUpdate mid
        { status := some "failed", processingLogs := some lg }) = none)
    (hLU : ∀ mid lg, pf (Event.storageUpdate mid { processingLogs := some lg }) = none)
    (hRun : ∀ c, pf (Event.runCmd c) = none)
    (hW : ∀ q, pf (Event.writeFile q) = none)
    (hP : ∀ a b, pf (Event.placeholderThumb a b) = none)
    (hU : ∀ q f2, pf (Event.uploadFile q f2) = none)
    (hRem : pf Event.removeWorkDir = none)
    (hFinal : ∀ g u t qr md lgs, pf (Event.storageUpdate modelId
        { status := some "complete", glbFileUrl := some g, usdzFileUrl := some u,
          thumbnailUrl := some t, shortLink := some (nanoid 8 cfg.seed),
          qrCodeUrl := some qr, metadata := some md, processingLogs := some lgs }) = F) :
    ProjOk pf (pipelineAfterConvert cfg cancelAt modelId glbPath)
      ((pf (Event.logLine "Analyzing model...")).toList ++
       (pf (Event.logLine "Optimizing for WebAR...")).toList ++
       (pf (Event.logLine "Generating USDZ for iOS...")).toList ++
       (pf (Event.logLine "Creating thumbnail...")).toList ++
       (pf (Event.logLine "Uploading processed files...")).toList ++
       (pf (Event.logLine "Generating WebAR link...")).toList ++
       (if cfg.qrOk = true then
          (pf (Event.qrGenerated (cfg.baseUrl ++ "/ar/" ++ nanoid 8 cfg.seed)
            (nanoid 8 cfg.seed))).toList
        else []) ++
       F.toList ++
       (pf (Event.statusSet Status.complete)).toList ++
       (pf (Event.logLine "Conversion completed successfully!")).toList) := by
  have H :=
    projOk_bindM (projOk_awaitPoint cfg cancelAt 1 hSF hCU) (fun _ =>
    projOk_bindM (projOk_updateJobLogs cfg "Analyzing model..." hLU) (fun _ =>
    projOk_bindM (projOk_analyzeModel pf cfg glbPath) (fun metadata =>
    projOk_bindM (projOk_awaitPoint cfg cancelAt 2 hSF hCU) (fun _ =>
    projOk_bindM (projOk_updateJobLogs cfg "Optimizing for WebAR..." hLU) (fun _ =>
    projOk_bindM (projOk_optimizeForWebAR cfg glbPath (hRun _)) (fun optimizedGlbPath =>
    projOk_bindM (projOk_awaitPoint cfg cancelAt 3 hSF hCU) (fun _ =>
    projOk_bindM (projOk_updateJobLogs cfg "Generating USDZ for iOS..." hLU) (fun _ =>
    projOk_bindM (projOk_generateUSDZ cfg (hRun _) hW) (fun usdzPath =>
    projOk_bindM (projOk_awaitPoint cfg cancelAt 4 hSF hCU) (fun _ =>
    projOk_bindM (projOk_updateJobLogs cfg "Creating thumbnail..." hLU) (fun _ =>
    projOk_bindM (projOk_generateThumbnail cfg hW (hRun _) hP) (fun thumbnailPath =>
    projOk_bindM (projOk_awaitPoint cfg cancelAt 5 hSF hCU) (fun _ =>
    projOk_bindM (projOk_updateJobLogs cfg "Uploading processed files..." hLU) (fun _ =>
    projOk_bindM (projOk_uploadProcessedModel cfg optimizedGlbPath modelId "glb" hU) (fun glbUrl =>
    projOk_bindM (projOk_uploadProcessedModel cfg usdzPath modelId "usdz" hU) (fun usdzUrl =>
    projOk_bindM (projOk_uploadProcessedModel cfg thumbnailPath modelId "jpg" hU) (fun thumbnailUrl =>
    projOk_bindM (projOk_modifyJobM pf (fun job =>
      { job with outputFiles :=
          { glb := some glbUrl, usdz := some usdzUrl, thumbnail := some thumbnailUrl } })) (fun _ =>
    projOk_bindM (projOk_awaitPoint cfg cancelAt 6 hSF hCU) (fun _ =>
    projOk_bindM (projOk_updateJobLogs cfg "Generating WebAR link..." hLU) (fun _ =>
    projOk_bindM (projOk_generateQRCode pf cfg (nanoid 8 cfg.seed)) (fun qrCodeUrl =>
    projOk_bindM (projOk_getJobM pf) (fun j3 =>
    projOk_bindM (projOk_emitEv_of
        (hFinal glbUrl usdzUrl thumbnailUrl qrCodeUrl metadata j3.logs)) (fun _ =>
    projOk_bindM (projOk_ite (c := cfg.storageOk = true)
        (projOk_pureM pf ()) (projOk_throwM pf "storage update failed")) (fun _ =>
    projOk_bindM (projOk_awaitPoint cfg cancelAt 7 hSF hCU) (fun _ =>
    projOk_bindM (projOk_setStatusM pf Status.complete) (fun _ =>
    projOk_bindM (projOk_modifyJobM pf (fun job => { job with endTime := some cfg.time })) (fun _ =>
    projOk_bindM (projOk_updateJobLogs cfg "Conversion completed successfully!" hLU) (fun _ =>
    projOk_cleanup cfg hRem))))))))))))))))))))))))))))
  simpa [pipelineAfterConvert] using H

/- ## Factoring a run through the deterministic prefix -/

theorem processConversionBody_eq (cfg : RunCfg) (job0 : ConversionJob) :
    processConversionBody cfg none { job := job0 }
      = (bindM (selectConverter cfg (lowerStr (extname job0.inputFile)))
          (fun glbPath => pipelineAfterConvert cfg none job0.modelId glbPath))
        (preState cfg job0) := rfl

theorem preState_filterMap_pfLog (cfg : RunCfg) (job0 : ConversionJob) :
    (preState cfg job0).events.filterMap pfLog = ["Starting conversion process..."] := by
  simp [preState, pfLog]

theorem preState_filterMap_pfShortLink (cfg : RunCfg) (job0 : ConversionJob) :
    (preState cfg job0).events.filterMap pfShortLink = [] := by
  simp [preState, pfShortLink]

theorem preState_filterMap_pfQr (cfg : RunCfg) (job0 : ConversionJob) :
    (preState cfg job0).events.filterMap pfQr = [] := by
  simp [preState, pfQr]

/- ## Short-link and QR projections of a successful run -/

/-- Helper: for any converter whose events carry no short links and no QR
generations, a successful run persists exactly the one freshly drawn
short link, and (when QR generation is enabled) the trace holds the QR
generation for the URL built from that link. -/
theorem run_shortLink_qr (cfg : RunCfg) (job0 : ConversionJob)
    (conv : StageM FPath)
    (hconvSL : ProjOk pfShortLink conv [])
    (hconvQr : ProjOk pfQr conv [])
    (hsel : selectConverter cfg (lowerStr (extname job0.inputFile)) = conv)
    (hc : (processConversion cfg none job0).job.status = Status.complete) :
    persistedShortLinks (processConversion cfg none job0).events = [nanoid 8 cfg.seed] ∧
    (cfg.qrOk = true →
      Event.qrGenerated (cfg.baseUrl ++ "/ar/" ++ nanoid 8 cfg.seed) (nanoid 8 cfg.seed)
        ∈ (processConversion cfg none job0).events) := by
  obtain ⟨hciff, hfiff, heq⟩ := processConversion_outcome cfg none job0
  have hok := hciff.mp hc
  rw [heq hok]
  have hbody := processConversionBody_eq cfg job0
  rw [hbody] at hok ⊢
  rw [hsel] at hok ⊢
  constructor
  · obtain ⟨t, hte, hproj⟩ :=
      projOk_bindM hconvSL
        (fun glbPath => projOk_pipelineAfterConvert pfShortLink cfg none job0.modelId glbPath
          (some (nanoid 8 cfg.seed)) rfl (fun mid lg => rfl) (fun mid lg => rfl)
          (fun c => rfl) (fun q => rfl) (fun a b => rfl) (fun q f2 => rfl) rfl
          (fun g u t2 qr md lgs => rfl))
        (preState cfg job0)
    have hp := hproj hok
    rw [hte, persistedShortLinks, List.filterMap_append, preState_filterMap_pfShortLink, hp]
    simp [pfShortLink]
  · intro hq
    obtain ⟨t, hte, hproj⟩ :=
      projOk_bindM hconvQr
        (fun glbPath => projOk_pipelineAfterConvert pfQr cfg none job0.modelId glbPath
          none rfl (fun mid lg => rfl) (fun mid lg => rfl)
          (fun c => rfl) (fun q => rfl) (fun a b => rfl) (fun q f2 => rfl) rfl
          (fun g u t2 qr md lgs => rfl))
        (preState cfg job0)
    have hp := hproj hok
    simp only [hq, if_true, pfQr] at hp
    have hmem : (cfg.baseUrl ++ "/ar/" ++ nanoid 8 cfg.seed, nanoid 8 cfg.seed)
        ∈ t.filterMap pfQr := by
      rw [hp]
      simp
    obtain ⟨e, het, hpe⟩ := List.mem_filterMap.mp hmem
    have he : e = Event.qrGenerated (cfg.baseUrl ++ "/ar/" ++ nanoid 8 cfg.seed)
        (nanoid 8 cfg.seed) := by
      cases e <;> simp [pfQr] at hpe
      · obtain ⟨h1, h2⟩ := hpe
        rw [h1, h2]
    rw [hte]
    rw [← he]
    exact List.mem_append.mpr (Or.inr het)

/- ## Claim C4 (amended theorem) -/

/-- C4 amended: for every successfully completing job, the short link the
final persistence write stores is the freshly drawn `nanoid(8)` — an
8-character identifier — and the QR code generated for the job (when QR
rendering succeeds) encodes `{baseUrl}/ar/{shortLink}` for exactly that
identifier; no other short link is ever persisted by the run, and no
collision check is involved. -/
theorem c4_amended_theorem (cfg : RunCfg) (job0 : ConversionJob)
    (hext : lowerStr (extname job0.inputFile) = ".glb"
          ∨ lowerStr (extname job0.inputFile) = ".gltf"
          ∨ lowerStr (extname job0.inputFile) = ".fbx"
          ∨ lowerStr (extname job0.inputFile) = ".obj")
    (hc : (processConversion cfg none job0).job.status = Status.complete) :
    persistedShortLinks (processConversion cfg none job0).events = [nanoid 8 cfg.seed] ∧
    (nanoid 8 cfg.seed).length = 8 ∧
    (cfg.qrOk = true →
      Event.qrGenerated (cfg.baseUrl ++ "/ar/" ++ nanoid 8 cfg.seed) (nanoid 8 cfg.seed)
        ∈ (processConversion cfg none job0).events) := by
  have hmain : persistedShortLinks (processConversion cfg none job0).events
        = [nanoid 8 cfg.seed] ∧
      (cfg.qrOk = true →
        Event.qrGenerated (cfg.baseUrl ++ "/ar/" ++ nanoid 8 cfg.seed) (nanoid 8 cfg.seed)
          ∈ (processConversion cfg none job0).events) := by
    rcases hext with h | h | h | h
    · exact run_shortLink_qr cfg job0 (processGLTF cfg)
        (projOk_processGLTF cfg (fun src dst => rfl) rfl)
        (projOk_processGLTF cfg (fun src dst => rfl) rfl)
        (by rw [h]; simp [selectConverter]) hc
    · exact run_shortLink_qr cfg job0 (processGLTF cfg)
        (projOk_processGLTF cfg (fun src dst => rfl) rfl)
        (projOk_processGLTF cfg (fun src dst => rfl) rfl)
        (by rw [h]; simp [selectConverter]) hc
    · exact run_shortLink_qr cfg job0 (convertFBXtoGLB cfg)
        (by
          simpa using
            projOk_convertFBXtoGLB pfShortLink cfg (fun q => rfl) (fun mid lg => rfl) rfl)
        (by
          simpa using
            projOk_convertFBXtoGLB pfQr cfg (fun q => rfl) (fun mid lg => rfl) rfl)
        (by rw [h]; simp [selectConverter]) hc
    · exact run_shortLink_qr cfg job0 (convertOBJtoGLB cfg)
        (by
          simpa using
            projOk_convertOBJtoGLB pfShortLink cfg (fun q => rfl) (fun mid lg => rfl) rfl)
        (by
          simpa using
            projOk_convertOBJtoGLB pfQr cfg (fun q => rfl) (fun mid lg => rfl) rfl)
        (by rw [h]; simp [selectConverter]) hc
  exact ⟨hmain.1, nanoid_length 8 cfg.seed, hmain.2⟩

/-- C4 witness: the amended theorem at the all-success `.glb` fixture. -/
theorem c4_witness :
    persistedShortLinks (processConversion cfgAllOk none jobGlb).events
        = [nanoid 8 cfgAllOk.seed] ∧
    (nanoid 8 cfgAllOk.seed).length = 8 ∧
    (cfgAllOk.qrOk = true →
      Event.qrGenerated (cfgAllOk.baseUrl ++ "/ar/" ++ nanoid 8 cfgAllOk.seed)
          (nanoid 8 cfgAllOk.seed)
        ∈ (processConversion cfgAllOk none jobGlb).events) :=
  c4_amended_theorem cfgAllOk jobGlb (by decide) (by decide)

/- ## Claim C5 (amended theorem) -/

/-- C5 amended: in every successfully completing run, the stage log
lines after `Starting conversion process...` (and the converter's own
line for FBX/OBJ) are, in order: analyze, optimize, USDZ, thumbnail,
upload, short-link generation, completion — metadata analysis runs
directly after format conversion, before optimization, not after the
thumbnail stage. -/
theorem c5_amended_theorem (cfg : RunCfg) (job0 : ConversionJob)
    (hext : lowerStr (extname job0.inputFile) = ".glb"
          ∨ lowerStr (extname job0.inputFile) = ".gltf"
          ∨ lowerStr (extname job0.inputFile) = ".fbx"
          ∨ lowerStr (extname job0.inputFile) = ".obj")
    (hc : (processConversion cfg none job0).job.status = Status.complete) :
    logMsgs (processConversion cfg none job0).events
      = "Starting conversion process..."
          :: (conversionLogs (lowerStr (extname job0.inputFile)) ++ mainPipelineLogs) := by
  obtain ⟨hciff, hfiff, heq⟩ := processConversion_outcome cfg none job0
  have hok := hciff.mp hc
  rw [heq hok]
  have hbody := processConversionBody_eq cfg job0
  rw [hbody] at hok ⊢
  have hmaster := fun glbPath => projOk_pipelineAfterConvert pfLog cfg none job0.modelId glbPath none
      rfl (fun mid lg => rfl) (fun mid lg => rfl) (fun c => rfl) (fun q => rfl)
      (fun a b => rfl) (fun q f2 => rfl) rfl (fun g u t qr md lgs => rfl)
  rcases hext with h | h | h | h <;> rw [h] at hok ⊢ <;>
  [ (have hsel : selectConverter cfg ".glb" = processGLTF cfg := by simp [selectConverter]);
    (have hsel : selectConverter cfg ".gltf" = processGLTF cfg := by simp [selectConverter]);
    (have hsel : selectConverter cfg ".fbx" = convertFBXtoGLB cfg := by simp [selectConverter]);
    (have hsel : selectConverter cfg ".obj" = convertOBJtoGLB cfg := by simp [selectConverter])] <;>
  rw [hsel] at hok ⊢
  · obtain ⟨t, hte, hproj⟩ :=
      projOk_bindM (projOk_processGLTF cfg (fun src dst => rfl) rfl) hmaster
        (preState cfg job0)
    have hp := hproj hok
    rw [hte, logMsgs, List.filterMap_append, preState_filterMap_pfLog, hp]
    simp [pfLog, conversionLogs, mainPipelineLogs]
  · obtain ⟨t, hte, hproj⟩ :=
      projOk_bindM (projOk_processGLTF cfg (fun src dst => rfl) rfl) hmaster
        (preState cfg job0)
    have hp := hproj hok
    rw [hte, logMsgs, List.filterMap_append, preState_filterMap_pfLog, hp]
    simp [pfLog, conversionLogs, mainPipelineLogs]
  · obtain ⟨t, hte, hproj⟩ :=
      projOk_bindM (projOk_convertFBXtoGLB pfLog cfg (fun q => rfl) (fun mid lg => rfl) rfl) hmaster
        (preState cfg job0)
    have hp := hproj hok
    rw [hte, logMsgs, List.filterMap_append, preState_filterMap_pfLog, hp]
    simp [pfLog, conversionLogs, mainPipelineLogs]
  · obtain ⟨t, hte, hproj⟩ :=
      projOk_bindM (projOk_convertOBJtoGLB pfLog cfg (fun q => rfl) (fun mid lg => rfl) rfl) hmaster
        (preState cfg job0)
    have hp := hproj hok
    rw [hte, logMsgs, List.filterMap_append, preState_filterMap_pfLog, hp]
    simp [pfLog, conversionLogs, mainPipelineLogs]

/-- C5 witness: the amended theorem at the all-success `.fbx` fixture. -/
theorem c5_witness :
    logMsgs (processConversion cfgAllOk none jobFbx).events
      = "Starting conversion process..."
          :: (conversionLogs (lowerStr (extname jobFbx.inputFile)) ++ mainPipelineLogs) :=
  c5_amended_theorem cfgAllOk jobFbx (by decide) (by decide)

end Nexora
